import Mathlib

/-!
# App action handler (`pkg/api/customization/app/app.go`)

A shallow embedding of `ActionWrapper.ActionHandler`, `upgradeCharts` and
`rollbackCharts`.  The handler talks to a number of collaborators (the resource
store, the kubeconfig getter, the filesystem, the helm binary, the tiller
goroutine).  Their behaviour is a parameter (`World`); the handler is a pure
function that returns the trace of effects it issued, in order, together with
the Go `error` it returns (`none` is `nil`).

Go `defer` is modelled by an explicit stack of deferred calls that is run,
last registered first, when the function returns.
-/

namespace App

/-- A Go `error` value. -/
abbrev Err := String

deriving instance DecidableEq for Except

/-- A value of type `interface{}` decoded from a JSON request body. -/
inductive Value where
  | null
  | str (s : String)
  | num (n : Int)
  | bool (b : Bool)
  deriving DecidableEq, Repr

/-- The type `map[string]interface{}`, as an association list. -/
abbrev Data := List (String × Value)

/-- Indexing `m[key]` of a `map[string]interface{}`: a missing key gives `nil`. -/
def Data.get (m : Data) (key : String) : Value :=
  match m.find? (fun kv => kv.1 == key) with
  | some kv => kv.2
  | none => Value.null

/-- The type `clientcmdapi.Cluster`. -/
structure Cluster where
  LocationOfOrigin : String
  Server : String
  InsecureSkipTLSVerify : Bool
  CertificateAuthority : String
  CertificateAuthorityData : List Nat
  Extensions : List (String × String)
  deriving DecidableEq, Repr

/-- The type `clientcmdapi.Config`; `Clusters` is `map[string]*Cluster`. -/
structure Config where
  Kind : String
  APIVersion : String
  Preferences : String
  Clusters : List (String × Cluster)
  AuthInfos : List (String × String)
  Contexts : List (String × String)
  CurrentContext : String
  Extensions : List (String × String)
  deriving DecidableEq, Repr

/-- The fields of `projectv3.App` the handler reads. -/
structure AppRes where
  ProjectId : String
  InstallNamespace : String
  Name : String
  deriving DecidableEq, Repr

/-- The fields of `managementv3.Cluster` the handler reads. -/
structure ClusterRes where
  ID : String
  deriving DecidableEq, Repr

/-- One entry of `TemplateVersion.Files`. -/
abbrev Files := List (String × String)

/-- The fields of `managementv3.TemplateVersion` the handler reads. -/
structure TemplateVersion where
  Files : Files
  deriving DecidableEq, Repr

/-- The inbound `*http.Request`. -/
structure Request where
  raw : String
  deriving DecidableEq, Repr

/-- The fields of `types.APIContext` the handler reads. -/
structure APIContext where
  ID : String
  Request : Request
  deriving DecidableEq, Repr

/-- The resource type passed to `access.ByID`. -/
inductive ResType where
  | AppType
  | ClusterType
  | TemplateVersionType
  deriving DecidableEq, Repr

/-- The effects the handler issues on its collaborators, each with the
arguments of the call and, where the handler looks at it, its result. -/
inductive Effect where
  /-- The call `access.ByID(apiContext, version, typ, id, &into)`. -/
  | byID (typ : ResType) (id : String) (err : Option Err)
  /-- The call `tokens.GetTokenAuthFromRequest(apiContext.Request)`. -/
  | getTokenAuthFromRequest (req : Request)
  /-- The call `a.KubeConfigGetter.KubeConfig(clusterID, token)`. -/
  | kubeConfig (clusterID token : String)
  /-- The call `ioutil.TempDir(dir, pattern)`. -/
  | tempDir (dir pattern : String) (res : Except Err String)
  /-- The call `clientcmd.WriteToFile(data, path)`. -/
  | writeToFile (data : Config) (path : String) (err : Option Err)
  /-- The call `context.WithCancel(context.Background())`. -/
  | withCancel
  /-- The call `cancel()` of the function returned by `context.WithCancel`. -/
  | cancel
  /-- The call `hutils.GenerateRandomPort()`. -/
  | generateRandomPort (res : String)
  /-- The statement `go hutils.StartTiller(cont, addr, probeAddr, ns, kubeConfigPath)`. -/
  | startTiller (addr probeAddr ns kubeConfigPath : String)
  /-- The call `parse.ReadBody(apiContext.Request)`. -/
  | readBody (req : Request) (err : Option Err)
  /-- The call `store.Update(apiContext, apiContext.Schema, data, id)`. -/
  | storeUpdate (data : Data) (id : String) (err : Option Err)
  /-- The call `hutils.ParseExternalID(externalID)`. -/
  | parseExternalID (externalID : String) (res : Except Err String)
  /-- The call `hutils.ConvertTemplates(files)`. -/
  | convertTemplates (files : Files) (err : Option Err)
  /-- The call `hutils.WriteTempDir(rootDir, files)`. -/
  | writeTempDir (rootDir : String) (files : Files) (res : Except Err String)
  /-- The call `cmd.Start()` on `exec.Command(name, args...)` with `cmd.Env = env`. -/
  | cmdStart (name : String) (args env : List String) (err : Option Err)
  /-- The call `cmd.Wait()` on the same command. -/
  | cmdWait (name : String) (args env : List String) (err : Option Err)
  /-- The call `os.RemoveAll(path)`. -/
  | removeAll (path : String)
  deriving DecidableEq, Repr

/-- The behaviour of the collaborators during one invocation.  A collaborator
that is called more than once (`store.Update`, `GenerateRandomPort`) answers
by the number of calls made to it before. -/
structure World where
  appByID : String → Except Err AppRes
  clusterByID : String → Except Err ClusterRes
  templateVersionByID : String → Except Err TemplateVersion
  GetTokenAuthFromRequest : Request → String
  KubeConfig : String → String → Config
  TempDir : String → String → Except Err String
  Join : String → String → String
  WriteToFile : Config → String → Option Err
  GenerateRandomPort : Nat → String
  ReadBody : Request → Except Err Data
  storeUpdate : Nat → Data → String → Option Err
  ToString : Value → String
  ParseExternalID : String → Except Err String
  ConvertTemplates : Files → Except Err Files
  WriteTempDir : String → Files → Except Err String
  cmdStart : String → List String → List String → Option Err
  cmdWait : String → List String → List String → Option Err

/-- The constant `helmName`. -/
def helmName : String := "helm"

/-- The constant `cacheRoot`. -/
def cacheRoot : String := "helm-controller"

/-- The expression `strings.Split(s, ":")[0]`: the part of `s` before its first colon. -/
def splitHead (s : String) : String :=
  String.mk (s.toList.takeWhile (fun c => c != ':'))

/-- One run of a function body: the effects issued before it returns, the
stack of deferred calls (the call registered last comes first) and the error
returned. -/
structure Run where
  trace : List Effect
  deferred : List Effect
  result : Option Err

/-- Returning from the function: the deferred calls run, last registered first. -/
def Run.finish (r : Run) : List Effect × Option Err :=
  (r.trace ++ r.deferred, r.result)

/-- The function `upgradeCharts`: the effects of `cmd.Start()` and `cmd.Wait()`
and the error returned. -/
def upgradeCharts (w : World) (rootDir port releaseName : String) : List Effect × Option Err :=
  let args := ["upgrade", "--namespace", releaseName, releaseName, rootDir]
  let env := ["HELM_HOST" ++ "=" ++ ("127.0.0.1:" ++ port)]
  match w.cmdStart helmName args env with
  | some err => ([Effect.cmdStart helmName args env (some err)], some err)
  | none =>
    ([Effect.cmdStart helmName args env none,
      Effect.cmdWait helmName args env (w.cmdWait helmName args env)],
     w.cmdWait helmName args env)

/-- The function `rollbackCharts`. -/
def rollbackCharts (w : World) (port releaseName revision : String) : List Effect × Option Err :=
  let args := ["rollback", releaseName, revision]
  let env := ["HELM_HOST" ++ "=" ++ ("127.0.0.1:" ++ port)]
  match w.cmdStart helmName args env with
  | some err => ([Effect.cmdStart helmName args env (some err)], some err)
  | none =>
    ([Effect.cmdStart helmName args env none,
      Effect.cmdWait helmName args env (w.cmdWait helmName args env)],
     w.cmdWait helmName args env)

/-- The loop `for k := range data.Clusters { data.Clusters[k].InsecureSkipTLSVerify = true }`. -/
def skipTLSVerify (data : Config) : Config :=
  { data with
    Clusters := data.Clusters.map
      (fun kc => (kc.1, { kc.2 with InsecureSkipTLSVerify := true })) }

/-- The effects `addr := GenerateRandomPort(); probeAddr := GenerateRandomPort();
go StartTiller(cont, addr, probeAddr, app.InstallNamespace, kubeConfigPath)` that
open both branches of the switch, after `context.WithCancel`. -/
def startBackend (w : World) (app : AppRes) (kubeConfigPath : String) : List Effect :=
  [Effect.withCancel,
   Effect.generateRandomPort (w.GenerateRandomPort 0),
   Effect.generateRandomPort (w.GenerateRandomPort 1),
   Effect.startTiller (w.GenerateRandomPort 0) (w.GenerateRandomPort 1)
     app.InstallNamespace kubeConfigPath]

/-- The branch `case "upgrade":` of the handler, from `context.WithCancel` to
its return; `deferred` holds the calls this branch defers. -/
def upgradeCase (w : World) (apiContext : APIContext) (app : AppRes)
    (rootDir kubeConfigPath : String) : Run :=
  let addr := w.GenerateRandomPort 0
  let t0 := startBackend w app kubeConfigPath
  match w.ReadBody apiContext.Request with
  | .error err =>
    ⟨t0 ++ [Effect.readBody apiContext.Request (some err)], [Effect.cancel], some err⟩
  | .ok actionInput =>
  let t1 := t0 ++ [Effect.readBody apiContext.Request none]
  let externalID := actionInput.get "externalId"
  let updateData : Data := [("externalId", externalID)]
  let t2 := t1 ++ [Effect.storeUpdate updateData apiContext.ID
                    (w.storeUpdate 0 updateData apiContext.ID)]
  match w.storeUpdate 0 updateData apiContext.ID with
  | some err => ⟨t2, [Effect.cancel], some err⟩
  | none =>
  let t3 := t2 ++ [Effect.parseExternalID (w.ToString externalID)
                    (w.ParseExternalID (w.ToString externalID))]
  match w.ParseExternalID (w.ToString externalID) with
  | .error err => ⟨t3, [Effect.cancel], some err⟩
  | .ok templateVersionID =>
  match w.templateVersionByID templateVersionID with
  | .error err =>
    ⟨t3 ++ [Effect.byID ResType.TemplateVersionType templateVersionID (some err)],
     [Effect.cancel], some err⟩
  | .ok templateVersion =>
  let t4 := t3 ++ [Effect.byID ResType.TemplateVersionType templateVersionID none]
  match w.ConvertTemplates templateVersion.Files with
  | .error err =>
    ⟨t4 ++ [Effect.convertTemplates templateVersion.Files (some err)],
     [Effect.cancel], some err⟩
  | .ok files =>
  let t5 := t4 ++ [Effect.convertTemplates templateVersion.Files none]
  let t6 := t5 ++ [Effect.writeTempDir rootDir files (w.WriteTempDir rootDir files)]
  match w.WriteTempDir rootDir files with
  | .error err => ⟨t6, [Effect.cancel], some err⟩
  | .ok tempDir =>
  match upgradeCharts w tempDir addr app.Name with
  | (tc, some err) => ⟨t6 ++ tc, [Effect.removeAll tempDir, Effect.cancel], some err⟩
  | (tc, none) =>
  let t8 := t6 ++ tc ++ [Effect.storeUpdate updateData apiContext.ID
                    (w.storeUpdate 1 updateData apiContext.ID)]
  match w.storeUpdate 1 updateData apiContext.ID with
  | some err => ⟨t8, [Effect.removeAll tempDir, Effect.cancel], some err⟩
  | none => ⟨t8, [Effect.removeAll tempDir, Effect.cancel], none⟩

/-- The branch `case "rollback":` of the handler. -/
def rollbackCase (w : World) (apiContext : APIContext) (app : AppRes)
    (kubeConfigPath : String) : Run :=
  let addr := w.GenerateRandomPort 0
  let t0 := startBackend w app kubeConfigPath
  match w.ReadBody apiContext.Request with
  | .error err =>
    ⟨t0 ++ [Effect.readBody apiContext.Request (some err)], [Effect.cancel], some err⟩
  | .ok actionInput =>
  let t1 := t0 ++ [Effect.readBody apiContext.Request none]
  let revision := actionInput.get "revision"
  match rollbackCharts w addr app.Name (w.ToString revision) with
  | (tc, some err) => ⟨t1 ++ tc, [Effect.cancel], some err⟩
  | (tc, none) =>
  let data : Data := [("name", Value.str apiContext.ID)]
  let t3 := t1 ++ tc ++ [Effect.storeUpdate data apiContext.ID
                    (w.storeUpdate 0 data apiContext.ID)]
  match w.storeUpdate 0 data apiContext.ID with
  | some err => ⟨t3, [Effect.cancel], some err⟩
  | none => ⟨t3, [Effect.cancel], none⟩

/-- The statement `switch actionName { case "upgrade": ... case "rollback": ... }`
followed by the final `return nil`. -/
def switchAction (w : World) (actionName : String) (apiContext : APIContext) (app : AppRes)
    (rootDir kubeConfigPath : String) : Run :=
  if actionName = "upgrade" then upgradeCase w apiContext app rootDir kubeConfigPath
  else if actionName = "rollback" then rollbackCase w apiContext app kubeConfigPath
  else ⟨[], [], none⟩

/-- The body of `ActionWrapper.ActionHandler` up to its return. -/
def actionHandlerBody (w : World) (actionName : String) (apiContext : APIContext) : Run :=
  match w.appByID apiContext.ID with
  | .error err => ⟨[Effect.byID ResType.AppType apiContext.ID (some err)], [], some err⟩
  | .ok app =>
  let t0 := [Effect.byID ResType.AppType apiContext.ID none]
  let clusterName := splitHead app.ProjectId
  match w.clusterByID clusterName with
  | .error err => ⟨t0 ++ [Effect.byID ResType.ClusterType clusterName (some err)], [], some err⟩
  | .ok cluster =>
  let tokenAuthValue := w.GetTokenAuthFromRequest apiContext.Request
  let data := skipTLSVerify (w.KubeConfig cluster.ID tokenAuthValue)
  let t1 := t0 ++ [Effect.byID ResType.ClusterType clusterName none,
                   Effect.getTokenAuthFromRequest apiContext.Request,
                   Effect.kubeConfig cluster.ID tokenAuthValue,
                   Effect.tempDir "" "helm-" (w.TempDir "" "helm-")]
  match w.TempDir "" "helm-" with
  | .error err => ⟨t1, [], some err⟩
  | .ok rootDir =>
  let kubeConfigPath := w.Join rootDir ".kubeconfig"
  let t2 := t1 ++ [Effect.writeToFile data kubeConfigPath (w.WriteToFile data kubeConfigPath)]
  match w.WriteToFile data kubeConfigPath with
  | some err => ⟨t2, [Effect.removeAll rootDir], some err⟩
  | none =>
  let r := switchAction w actionName apiContext app rootDir kubeConfigPath
  ⟨t2 ++ r.trace, r.deferred ++ [Effect.removeAll rootDir], r.result⟩

/-- The method `ActionWrapper.ActionHandler`: the effects it issues, in order,
the deferred calls included, and the error it returns. -/
def ActionHandler (w : World) (actionName : String) (apiContext : APIContext) :
    List Effect × Option Err :=
  (actionHandlerBody w actionName apiContext).finish

/-! ## The paths through the handler -/

/-- The bundle the handler writes: the getter's bundle after the loop over its clusters. -/
def kubeData (w : World) (apiContext : APIContext) (cluster : ClusterRes) : Config :=
  skipTLSVerify (w.KubeConfig cluster.ID (w.GetTokenAuthFromRequest apiContext.Request))

/-- The environment both `upgradeCharts` and `rollbackCharts` give the tool. -/
def helmEnv (port : String) : List String := ["HELM_HOST=127.0.0.1:" ++ port]

/-- The arguments `upgradeCharts` gives the tool. -/
def upgradeArgs (rootDir releaseName : String) : List String :=
  ["upgrade", "--namespace", releaseName, releaseName, rootDir]

/-- The arguments `rollbackCharts` gives the tool. -/
def rollbackArgs (releaseName revision : String) : List String :=
  ["rollback", releaseName, revision]

/-- The three ways a run of the tool ends: `cmd.Start()` fails, `cmd.Wait()`
fails, or both succeed. -/
inductive ToolPath (w : World) (args env : List String) : List Effect × Option Err → Prop
  | startFailed (err : Err) (h : w.cmdStart helmName args env = some err) :
      ToolPath w args env ([Effect.cmdStart helmName args env (some err)], some err)
  | waitFailed (err : Err) (h : w.cmdStart helmName args env = none)
      (h' : w.cmdWait helmName args env = some err) :
      ToolPath w args env
        ([Effect.cmdStart helmName args env none, Effect.cmdWait helmName args env (some err)],
         some err)
  | exited (h : w.cmdStart helmName args env = none)
      (h' : w.cmdWait helmName args env = none) :
      ToolPath w args env
        ([Effect.cmdStart helmName args env none, Effect.cmdWait helmName args env none], none)

/-- The effects up to and including the credential write, when the lookups,
`ioutil.TempDir` and `clientcmd.WriteToFile` all succeeded. -/
def prelude (w : World) (apiContext : APIContext) (app : AppRes) (cluster : ClusterRes)
    (rootDir : String) : List Effect :=
  [Effect.byID ResType.AppType apiContext.ID none,
   Effect.byID ResType.ClusterType (splitHead app.ProjectId) none,
   Effect.getTokenAuthFromRequest apiContext.Request,
   Effect.kubeConfig cluster.ID (w.GetTokenAuthFromRequest apiContext.Request),
   Effect.tempDir "" "helm-" (.ok rootDir),
   Effect.writeToFile (kubeData w apiContext cluster) (w.Join rootDir ".kubeconfig") none]

/-- The effects of either branch up to and including a successful `parse.ReadBody`. -/
def requestTrace (w : World) (apiContext : APIContext) (app : AppRes) (cluster : ClusterRes)
    (rootDir : String) : List Effect :=
  prelude w apiContext app cluster rootDir ++
    startBackend w app (w.Join rootDir ".kubeconfig") ++
    [Effect.readBody apiContext.Request none]

/-- The payload of both state updates of the upgrade branch. -/
def upgradeData (body : Data) : Data := [("externalId", body.get "externalId")]

/-- The payload of the state update of the rollback branch. -/
def rollbackData (apiContext : APIContext) : Data := [("name", Value.str apiContext.ID)]

/-- The effects of the upgrade branch up to and including a successful
`hutils.WriteTempDir`. -/
def chartTrace (w : World) (apiContext : APIContext) (app : AppRes) (cluster : ClusterRes)
    (rootDir : String) (body : Data) (templateVersionID : String)
    (templateVersion : TemplateVersion) (files : Files) (tempDir : String) : List Effect :=
  requestTrace w apiContext app cluster rootDir ++
    [Effect.storeUpdate (upgradeData body) apiContext.ID none,
     Effect.parseExternalID (w.ToString (body.get "externalId")) (.ok templateVersionID),
     Effect.byID ResType.TemplateVersionType templateVersionID none,
     Effect.convertTemplates templateVersion.Files none,
     Effect.writeTempDir rootDir files (.ok tempDir)]

/-- The paths through `ActionHandler`: each constructor is one return of the
function, with the answers of the collaborators that lead to it, the trace of
the invocation (deferred calls included) and the error returned. -/
inductive HandlerPath (w : World) (actionName : String) (apiContext : APIContext) :
    List Effect × Option Err → Prop
  | appLookupFailed (err : Err)
      (happ : w.appByID apiContext.ID = .error err) :
      HandlerPath w actionName apiContext
        ([Effect.byID ResType.AppType apiContext.ID (some err)], some err)
  | clusterLookupFailed (app : AppRes) (err : Err)
      (happ : w.appByID apiContext.ID = .ok app)
      (hcluster : w.clusterByID (splitHead app.ProjectId) = .error err) :
      HandlerPath w actionName apiContext
        ([Effect.byID ResType.AppType apiContext.ID none,
          Effect.byID ResType.ClusterType (splitHead app.ProjectId) (some err)], some err)
  | tempDirFailed (app : AppRes) (cluster : ClusterRes) (err : Err)
      (happ : w.appByID apiContext.ID = .ok app)
      (hcluster : w.clusterByID (splitHead app.ProjectId) = .ok cluster)
      (htemp : w.TempDir "" "helm-" = .error err) :
      HandlerPath w actionName apiContext
        ([Effect.byID ResType.AppType apiContext.ID none,
          Effect.byID ResType.ClusterType (splitHead app.ProjectId) none,
          Effect.getTokenAuthFromRequest apiContext.Request,
          Effect.kubeConfig cluster.ID (w.GetTokenAuthFromRequest apiContext.Request),
          Effect.tempDir "" "helm-" (.error err)], some err)
  | writeToFileFailed (app : AppRes) (cluster : ClusterRes) (rootDir : String) (err : Err)
      (happ : w.appByID apiContext.ID = .ok app)
      (hcluster : w.clusterByID (splitHead app.ProjectId) = .ok cluster)
      (htemp : w.TempDir "" "helm-" = .ok rootDir)
      (hwrite : w.WriteToFile (kubeData w apiContext cluster) (w.Join rootDir ".kubeconfig")
        = some err) :
      HandlerPath w actionName apiContext
        ([Effect.byID ResType.AppType apiContext.ID none,
          Effect.byID ResType.ClusterType (splitHead app.ProjectId) none,
          Effect.getTokenAuthFromRequest apiContext.Request,
          Effect.kubeConfig cluster.ID (w.GetTokenAuthFromRequest apiContext.Request),
          Effect.tempDir "" "helm-" (.ok rootDir),
          Effect.writeToFile (kubeData w apiContext cluster) (w.Join rootDir ".kubeconfig")
            (some err),
          Effect.removeAll rootDir], some err)
  | otherAction (app : AppRes) (cluster : ClusterRes) (rootDir : String)
      (hup : actionName ≠ "upgrade") (hrb : actionName ≠ "rollback")
      (happ : w.appByID apiContext.ID = .ok app)
      (hcluster : w.clusterByID (splitHead app.ProjectId) = .ok cluster)
      (htemp : w.TempDir "" "helm-" = .ok rootDir)
      (hwrite : w.WriteToFile (kubeData w apiContext cluster) (w.Join rootDir ".kubeconfig")
        = none) :
      HandlerPath w actionName apiContext
        (prelude w apiContext app cluster rootDir ++ [Effect.removeAll rootDir], none)
  | readBodyFailed (app : AppRes) (cluster : ClusterRes) (rootDir : String) (err : Err)
      (hact : actionName = "upgrade" ∨ actionName = "rollback")
      (happ : w.appByID apiContext.ID = .ok app)
      (hcluster : w.clusterByID (splitHead app.ProjectId) = .ok cluster)
      (htemp : w.TempDir "" "helm-" = .ok rootDir)
      (hwrite : w.WriteToFile (kubeData w apiContext cluster) (w.Join rootDir ".kubeconfig")
        = none)
      (hbody : w.ReadBody apiContext.Request = .error err) :
      HandlerPath w actionName apiContext
        (prelude w apiContext app cluster rootDir ++
          startBackend w app (w.Join rootDir ".kubeconfig") ++
          [Effect.readBody apiContext.Request (some err),
           Effect.cancel, Effect.removeAll rootDir], some err)
  | upgradePreWriteFailed (app : AppRes) (cluster : ClusterRes) (rootDir : String)
      (body : Data) (err : Err)
      (hact : actionName = "upgrade")
      (happ : w.appByID apiContext.ID = .ok app)
      (hcluster : w.clusterByID (splitHead app.ProjectId) = .ok cluster)
      (htemp : w.TempDir "" "helm-" = .ok rootDir)
      (hwrite : w.WriteToFile (kubeData w apiContext cluster) (w.Join rootDir ".kubeconfig")
        = none)
      (hbody : w.ReadBody apiContext.Request = .ok body)
      (hpre : w.storeUpdate 0 (upgradeData body) apiContext.ID = some err) :
      HandlerPath w actionName apiContext
        (requestTrace w apiContext app cluster rootDir ++
          [Effect.storeUpdate (upgradeData body) apiContext.ID (some err),
           Effect.cancel, Effect.removeAll rootDir], some err)
  | parseExternalIDFailed (app : AppRes) (cluster : ClusterRes) (rootDir : String)
      (body : Data) (err : Err)
      (hact : actionName = "upgrade")
      (happ : w.appByID apiContext.ID = .ok app)
      (hcluster : w.clusterByID (splitHead app.ProjectId) = .ok cluster)
      (htemp : w.TempDir "" "helm-" = .ok rootDir)
      (hwrite : w.WriteToFile (kubeData w apiContext cluster) (w.Join rootDir ".kubeconfig")
        = none)
      (hbody : w.ReadBody apiContext.Request = .ok body)
      (hpre : w.storeUpdate 0 (upgradeData body) apiContext.ID = none)
      (hparse : w.ParseExternalID (w.ToString (body.get "externalId")) = .error err) :
      HandlerPath w actionName apiContext
        (requestTrace w apiContext app cluster rootDir ++
          [Effect.storeUpdate (upgradeData body) apiContext.ID none,
           Effect.parseExternalID (w.ToString (body.get "externalId")) (.error err),
           Effect.cancel, Effect.removeAll rootDir], some err)
  | templateLookupFailed (app : AppRes) (cluster : ClusterRes) (rootDir : String)
      (body : Data) (templateVersionID : String) (err : Err)
      (hact : actionName = "upgrade")
      (happ : w.appByID apiContext.ID = .ok app)
      (hcluster : w.clusterByID (splitHead app.ProjectId) = .ok cluster)
      (htemp : w.TempDir "" "helm-" = .ok rootDir)
      (hwrite : w.WriteToFile (kubeData w apiContext cluster) (w.Join rootDir ".kubeconfig")
        = none)
      (hbody : w.ReadBody apiContext.Request = .ok body)
      (hpre : w.storeUpdate 0 (upgradeData body) apiContext.ID = none)
      (hparse : w.ParseExternalID (w.ToString (body.get "externalId")) = .ok templateVersionID)
      (htv : w.templateVersionByID templateVersionID = .error err) :
      HandlerPath w actionName apiContext
        (requestTrace w apiContext app cluster rootDir ++
          [Effect.storeUpdate (upgradeData body) apiContext.ID none,
           Effect.parseExternalID (w.ToString (body.get "externalId")) (.ok templateVersionID),
           Effect.byID ResType.TemplateVersionType templateVersionID (some err),
           Effect.cancel, Effect.removeAll rootDir], some err)
  | convertTemplatesFailed (app : AppRes) (cluster : ClusterRes) (rootDir : String)
      (body : Data) (templateVersionID : String) (templateVersion : TemplateVersion) (err : Err)
      (hact : actionName = "upgrade")
      (happ : w.appByID apiContext.ID = .ok app)
      (hcluster : w.clusterByID (splitHead app.ProjectId) = .ok cluster)
      (htemp : w.TempDir "" "helm-" = .ok rootDir)
      (hwrite : w.WriteToFile (kubeData w apiContext cluster) (w.Join rootDir ".kubeconfig")
        = none)
      (hbody : w.ReadBody apiContext.Request = .ok body)
      (hpre : w.storeUpdate 0 (upgradeData body) apiContext.ID = none)
      (hparse : w.ParseExternalID (w.ToString (body.get "externalId")) = .ok templateVersionID)
      (htv : w.templateVersionByID templateVersionID = .ok templateVersion)
      (hconv : w.ConvertTemplates templateVersion.Files = .error err) :
      HandlerPath w actionName apiContext
        (requestTrace w apiContext app cluster rootDir ++
          [Effect.storeUpdate (upgradeData body) apiContext.ID none,
           Effect.parseExternalID (w.ToString (body.get "externalId")) (.ok templateVersionID),
           Effect.byID ResType.TemplateVersionType templateVersionID none,
           Effect.convertTemplates templateVersion.Files (some err),
           Effect.cancel, Effect.removeAll rootDir], some err)
  | writeTempDirFailed (app : AppRes) (cluster : ClusterRes) (rootDir : String)
      (body : Data) (templateVersionID : String) (templateVersion : TemplateVersion)
      (files : Files) (err : Err)
      (hact : actionName = "upgrade")
      (happ : w.appByID apiContext.ID = .ok app)
      (hcluster : w.clusterByID (splitHead app.ProjectId) = .ok cluster)
      (htemp : w.TempDir "" "helm-" = .ok rootDir)
      (hwrite : w.WriteToFile (kubeData w apiContext cluster) (w.Join rootDir ".kubeconfig")
        = none)
      (hbody : w.ReadBody apiContext.Request = .ok body)
      (hpre : w.storeUpdate 0 (upgradeData body) apiContext.ID = none)
      (hparse : w.ParseExternalID (w.ToString (body.get "externalId")) = .ok templateVersionID)
      (htv : w.templateVersionByID templateVersionID = .ok templateVersion)
      (hconv : w.ConvertTemplates templateVersion.Files = .ok files)
      (hchart : w.WriteTempDir rootDir files = .error err) :
      HandlerPath w actionName apiContext
        (requestTrace w apiContext app cluster rootDir ++
          [Effect.storeUpdate (upgradeData body) apiContext.ID none,
           Effect.parseExternalID (w.ToString (body.get "externalId")) (.ok templateVersionID),
           Effect.byID ResType.TemplateVersionType templateVersionID none,
           Effect.convertTemplates templateVersion.Files none,
           Effect.writeTempDir rootDir files (.error err),
           Effect.cancel, Effect.removeAll rootDir], some err)
  | upgradeStartFailed (app : AppRes) (cluster : ClusterRes) (rootDir : String)
      (body : Data) (templateVersionID : String) (templateVersion : TemplateVersion)
      (files : Files) (tempDir : String) (err : Err)
      (hact : actionName = "upgrade")
      (happ : w.appByID apiContext.ID = .ok app)
      (hcluster : w.clusterByID (splitHead app.ProjectId) = .ok cluster)
      (htemp : w.TempDir "" "helm-" = .ok rootDir)
      (hwrite : w.WriteToFile (kubeData w apiContext cluster) (w.Join rootDir ".kubeconfig")
        = none)
      (hbody : w.ReadBody apiContext.Request = .ok body)
      (hpre : w.storeUpdate 0 (upgradeData body) apiContext.ID = none)
      (hparse : w.ParseExternalID (w.ToString (body.get "externalId")) = .ok templateVersionID)
      (htv : w.templateVersionByID templateVersionID = .ok templateVersion)
      (hconv : w.ConvertTemplates templateVersion.Files = .ok files)
      (hchart : w.WriteTempDir rootDir files = .ok tempDir)
      (hstart : w.cmdStart helmName (upgradeArgs tempDir app.Name)
        (helmEnv (w.GenerateRandomPort 0)) = some err) :
      HandlerPath w actionName apiContext
        (chartTrace w apiContext app cluster rootDir body templateVersionID templateVersion
            files tempDir ++
          [Effect.cmdStart helmName (upgradeArgs tempDir app.Name)
             (helmEnv (w.GenerateRandomPort 0)) (some err),
           Effect.removeAll tempDir, Effect.cancel, Effect.removeAll rootDir], some err)
  | upgradeWaitFailed (app : AppRes) (cluster : ClusterRes) (rootDir : String)
      (body : Data) (templateVersionID : String) (templateVersion : TemplateVersion)
      (files : Files) (tempDir : String) (err : Err)
      (hact : actionName = "upgrade")
      (happ : w.appByID apiContext.ID = .ok app)
      (hcluster : w.clusterByID (splitHead app.ProjectId) = .ok cluster)
      (htemp : w.TempDir "" "helm-" = .ok rootDir)
      (hwrite : w.WriteToFile (kubeData w apiContext cluster) (w.Join rootDir ".kubeconfig")
        = none)
      (hbody : w.ReadBody apiContext.Request = .ok body)
      (hpre : w.storeUpdate 0 (upgradeData body) apiContext.ID = none)
      (hparse : w.ParseExternalID (w.ToString (body.get "externalId")) = .ok templateVersionID)
      (htv : w.templateVersionByID templateVersionID = .ok templateVersion)
      (hconv : w.ConvertTemplates templateVersion.Files = .ok files)
      (hchart : w.WriteTempDir rootDir files = .ok tempDir)
      (hstart : w.cmdStart helmName (upgradeArgs tempDir app.Name)
        (helmEnv (w.GenerateRandomPort 0)) = none)
      (hwait : w.cmdWait helmName (upgradeArgs tempDir app.Name)
        (helmEnv (w.GenerateRandomPort 0)) = some err) :
      HandlerPath w actionName apiContext
        (chartTrace w apiContext app cluster rootDir body templateVersionID templateVersion
            files tempDir ++
          [Effect.cmdStart helmName (upgradeArgs tempDir app.Name)
             (helmEnv (w.GenerateRandomPort 0)) none,
           Effect.cmdWait helmName (upgradeArgs tempDir app.Name)
             (helmEnv (w.GenerateRandomPort 0)) (some err),
           Effect.removeAll tempDir, Effect.cancel, Effect.removeAll rootDir], some err)
  | upgradeToolExited (app : AppRes) (cluster : ClusterRes) (rootDir : String)
      (body : Data) (templateVersionID : String) (templateVersion : TemplateVersion)
      (files : Files) (tempDir : String)
      (hact : actionName = "upgrade")
      (happ : w.appByID apiContext.ID = .ok app)
      (hcluster : w.clusterByID (splitHead app.ProjectId) = .ok cluster)
      (htemp : w.TempDir "" "helm-" = .ok rootDir)
      (hwrite : w.WriteToFile (kubeData w apiContext cluster) (w.Join rootDir ".kubeconfig")
        = none)
      (hbody : w.ReadBody apiContext.Request = .ok body)
      (hpre : w.storeUpdate 0 (upgradeData body) apiContext.ID = none)
      (hparse : w.ParseExternalID (w.ToString (body.get "externalId")) = .ok templateVersionID)
      (htv : w.templateVersionByID templateVersionID = .ok templateVersion)
      (hconv : w.ConvertTemplates templateVersion.Files = .ok files)
      (hchart : w.WriteTempDir rootDir files = .ok tempDir)
      (hstart : w.cmdStart helmName (upgradeArgs tempDir app.Name)
        (helmEnv (w.GenerateRandomPort 0)) = none)
      (hwait : w.cmdWait helmName (upgradeArgs tempDir app.Name)
        (helmEnv (w.GenerateRandomPort 0)) = none) :
      HandlerPath w actionName apiContext
        (chartTrace w apiContext app cluster rootDir body templateVersionID templateVersion
            files tempDir ++
          [Effect.cmdStart helmName (upgradeArgs tempDir app.Name)
             (helmEnv (w.GenerateRandomPort 0)) none,
           Effect.cmdWait helmName (upgradeArgs tempDir app.Name)
             (helmEnv (w.GenerateRandomPort 0)) none,
           Effect.storeUpdate (upgradeData body) apiContext.ID
             (w.storeUpdate 1 (upgradeData body) apiContext.ID),
           Effect.removeAll tempDir, Effect.cancel, Effect.removeAll rootDir],
         w.storeUpdate 1 (upgradeData body) apiContext.ID)
  | rollbackStartFailed (app : AppRes) (cluster : ClusterRes) (rootDir : String)
      (body : Data) (err : Err)
      (hact : actionName = "rollback")
      (happ : w.appByID apiContext.ID = .ok app)
      (hcluster : w.clusterByID (splitHead app.ProjectId) = .ok cluster)
      (htemp : w.TempDir "" "helm-" = .ok rootDir)
      (hwrite : w.WriteToFile (kubeData w apiContext cluster) (w.Join rootDir ".kubeconfig")
        = none)
      (hbody : w.ReadBody apiContext.Request = .ok body)
      (hstart : w.cmdStart helmName (rollbackArgs app.Name (w.ToString (body.get "revision")))
        (helmEnv (w.GenerateRandomPort 0)) = some err) :
      HandlerPath w actionName apiContext
        (requestTrace w apiContext app cluster rootDir ++
          [Effect.cmdStart helmName (rollbackArgs app.Name (w.ToString (body.get "revision")))
             (helmEnv (w.GenerateRandomPort 0)) (some err),
           Effect.cancel, Effect.removeAll rootDir], some err)
  | rollbackWaitFailed (app : AppRes) (cluster : ClusterRes) (rootDir : String)
      (body : Data) (err : Err)
      (hact : actionName = "rollback")
      (happ : w.appByID apiContext.ID = .ok app)
      (hcluster : w.clusterByID (splitHead app.ProjectId) = .ok cluster)
      (htemp : w.TempDir "" "helm-" = .ok rootDir)
      (hwrite : w.WriteToFile (kubeData w apiContext cluster) (w.Join rootDir ".kubeconfig")
        = none)
      (hbody : w.ReadBody apiContext.Request = .ok body)
      (hstart : w.cmdStart helmName (rollbackArgs app.Name (w.ToString (body.get "revision")))
        (helmEnv (w.GenerateRandomPort 0)) = none)
      (hwait : w.cmdWait helmName (rollbackArgs app.Name (w.ToString (body.get "revision")))
        (helmEnv (w.GenerateRandomPort 0)) = some err) :
      HandlerPath w actionName apiContext
        (requestTrace w apiContext app cluster rootDir ++
          [Effect.cmdStart helmName (rollbackArgs app.Name (w.ToString (body.get "revision")))
             (helmEnv (w.GenerateRandomPort 0)) none,
           Effect.cmdWait helmName (rollbackArgs app.Name (w.ToString (body.get "revision")))
             (helmEnv (w.GenerateRandomPort 0)) (some err),
           Effect.cancel, Effect.removeAll rootDir], some err)
  | rollbackToolExited (app : AppRes) (cluster : ClusterRes) (rootDir : String)
      (body : Data)
      (hact : actionName = "rollback")
      (happ : w.appByID apiContext.ID = .ok app)
      (hcluster : w.clusterByID (splitHead app.ProjectId) = .ok cluster)
      (htemp : w.TempDir "" "helm-" = .ok rootDir)
      (hwrite : w.WriteToFile (kubeData w apiContext cluster) (w.Join rootDir ".kubeconfig")
        = none)
      (hbody : w.ReadBody apiContext.Request = .ok body)
      (hstart : w.cmdStart helmName (rollbackArgs app.Name (w.ToString (body.get "revision")))
        (helmEnv (w.GenerateRandomPort 0)) = none)
      (hwait : w.cmdWait helmName (rollbackArgs app.Name (w.ToString (body.get "revision")))
        (helmEnv (w.GenerateRandomPort 0)) = none) :
      HandlerPath w actionName apiContext
        (requestTrace w apiContext app cluster rootDir ++
          [Effect.cmdStart helmName (rollbackArgs app.Name (w.ToString (body.get "revision")))
             (helmEnv (w.GenerateRandomPort 0)) none,
           Effect.cmdWait helmName (rollbackArgs app.Name (w.ToString (body.get "revision")))
             (helmEnv (w.GenerateRandomPort 0)) none,
           Effect.storeUpdate (rollbackData apiContext) apiContext.ID
             (w.storeUpdate 0 (rollbackData apiContext) apiContext.ID),
           Effect.cancel, Effect.removeAll rootDir],
         w.storeUpdate 0 (rollbackData apiContext) apiContext.ID)

/-! ## Classes of effects -/

/-- A release of an ephemeral resource: `cancel()` or `os.RemoveAll`. -/
def Effect.isRelease : Effect → Bool
  | Effect.cancel => true
  | Effect.removeAll _ => true
  | _ => false

/-- A removal: a call of `os.RemoveAll`. -/
def Effect.isRemove : Effect → Bool
  | Effect.removeAll _ => true
  | _ => false

/-- An acquisition of an ephemeral resource: a directory that was created by
`ioutil.TempDir` or `hutils.WriteTempDir`, or a context that was created. -/
def Effect.isAcquire : Effect → Bool
  | Effect.tempDir _ _ (.ok _) => true
  | Effect.withCancel => true
  | Effect.writeTempDir _ _ (.ok _) => true
  | _ => false

/-- A successful `ioutil.TempDir`: the workspace root was created. -/
def Effect.isWorkspace : Effect → Bool
  | Effect.tempDir _ _ (.ok _) => true
  | _ => false

/-- A successful `hutils.WriteTempDir`: the chart directory was created. -/
def Effect.isChartDir : Effect → Bool
  | Effect.writeTempDir _ _ (.ok _) => true
  | _ => false

/-- The credential write: a call of `clientcmd.WriteToFile`. -/
def Effect.isCredentialWrite : Effect → Bool
  | Effect.writeToFile _ _ _ => true
  | _ => false

/-- A credential write that returned no error. -/
def Effect.isCredentialWritten : Effect → Bool
  | Effect.writeToFile _ _ none => true
  | _ => false

/-- A state update: a call of `store.Update`. -/
def Effect.isUpdate : Effect → Bool
  | Effect.storeUpdate _ _ _ => true
  | _ => false

/-- An operation on the resource store: `access.ByID` or `store.Update`. -/
def Effect.isStoreOp : Effect → Bool
  | Effect.byID _ _ _ => true
  | Effect.storeUpdate _ _ _ => true
  | _ => false

/-- A template-version lookup that returned an error. -/
def Effect.isTemplateMiss : Effect → Bool
  | Effect.byID ResType.TemplateVersionType _ (some _) => true
  | _ => false

/-- An invocation of the external tool: `cmd.Start()`. -/
def Effect.isTool : Effect → Bool
  | Effect.cmdStart _ _ _ _ => true
  | _ => false

/-- An operation on the external tool's process: `cmd.Start()` or `cmd.Wait()`. -/
def Effect.isCmd : Effect → Bool
  | Effect.cmdStart _ _ _ _ => true
  | Effect.cmdWait _ _ _ _ => true
  | _ => false

/-- The tool failed: `cmd.Start()` or `cmd.Wait()` returned an error. -/
def Effect.isToolFailure : Effect → Bool
  | Effect.cmdStart _ _ _ (some _) => true
  | Effect.cmdWait _ _ _ (some _) => true
  | _ => false

/-- The tool exited with code 0: `cmd.Wait()` returned no error. -/
def Effect.isExitZero : Effect → Bool
  | Effect.cmdWait _ _ _ none => true
  | _ => false

/-- The statement `go hutils.StartTiller(...)`. -/
def Effect.isStartTiller : Effect → Bool
  | Effect.startTiller _ _ _ _ => true
  | _ => false

/-- A call of `hutils.GenerateRandomPort`. -/
def Effect.isPort : Effect → Bool
  | Effect.generateRandomPort _ => true
  | _ => false

/-! ## Sample collaborators -/

/-- A request on the app `p-1:my-app`. -/
def demoContext : APIContext := ⟨"p-1:my-app", ⟨"POST /v3/project/c-1:p-1/apps/p-1:my-app"⟩⟩

/-- The conversion `convert.ToString` on the values of a decoded body. -/
def demoToString : Value → String
  | Value.null => ""
  | Value.str s => s
  | Value.num n => toString n
  | Value.bool b => toString b

/-- A bundle with one cluster entry that verifies TLS. -/
def demoConfig : Config :=
  { Kind := "Config", APIVersion := "v1", Preferences := "",
    Clusters := [("c-1", ⟨"", "https://rancher/k8s/clusters/c-1", false, "", [], []⟩)],
    AuthInfos := [("user", "token")], Contexts := [("default", "c-1")],
    CurrentContext := "default", Extensions := [] }

/-- Collaborators that all succeed; the app `my-app` lives in project `c-1:p-1`. -/
def demoWorld : World where
  appByID := fun _ => .ok ⟨"c-1:p-1", "my-ns", "my-app"⟩
  clusterByID := fun id => .ok ⟨id⟩
  templateVersionByID := fun _ => .ok ⟨[("my-app/Chart.yaml", "bmFtZTogbXktYXBw")]⟩
  GetTokenAuthFromRequest := fun _ => "token-abc"
  KubeConfig := fun _ _ => demoConfig
  TempDir := fun _ _ => .ok "/tmp/helm-1"
  Join := fun dir name => dir ++ "/" ++ name
  WriteToFile := fun _ _ => none
  GenerateRandomPort := fun n => if n = 0 then "40001" else "40002"
  ReadBody := fun _ => .ok [("externalId", Value.str "catalog://?version=1.0"),
                            ("revision", Value.str "3")]
  storeUpdate := fun _ _ _ => none
  ToString := demoToString
  ParseExternalID := fun _ => .ok "library-my-app-1.0"
  ConvertTemplates := fun files => .ok files
  WriteTempDir := fun rootDir _ => .ok (rootDir ++ "/my-app")
  cmdStart := fun _ _ _ => none
  cmdWait := fun _ _ _ => none

/-- As `demoWorld`, but `hutils.WriteTempDir` returns the workspace root itself
as the chart directory. -/
def chartIsRootWorld : World :=
  { demoWorld with WriteTempDir := fun rootDir _ => .ok rootDir }

/-- As `demoWorld`, but the app lookup fails. -/
def noAppWorld : World :=
  { demoWorld with appByID := fun _ => .error "not found" }

/-- As `demoWorld`, but the template version does not exist. -/
def noTemplateWorld : World :=
  { demoWorld with templateVersionByID := fun _ => .error "not found" }

/-- As `demoWorld`, but the tool exits with a nonzero code. -/
def toolFailsWorld : World :=
  { demoWorld with cmdWait := fun _ _ _ => some "exit status 1" }

/-! ## Lemmas on traces -/

theorem forall_of_all {l : List Effect} {p : Effect → Bool}
    (h : l.all (fun e => !p e) = true) : ∀ e ∈ l, p e = false := by
  intro e he
  have := List.all_eq_true.mp h e he
  simpa using this

theorem any_of_mem {l : List Effect} (p : Effect → Bool) {e : Effect}
    (he : e ∈ l) (hp : p e = true) : l.any p = true :=
  List.any_eq_true.mpr ⟨e, he, hp⟩

theorem mem_filter_of_mem {l : List Effect} (p : Effect → Bool) {e : Effect}
    (he : e ∈ l) (hp : p e = true) : e ∈ l.filter p :=
  List.mem_filter.mpr ⟨he, hp⟩

/-! ## The tool -/

theorem helmHost_eq (port : String) :
    "HELM_HOST" ++ "=" ++ ("127.0.0.1:" ++ port) = "HELM_HOST=127.0.0.1:" ++ port := by
  rw [← String.append_assoc]; rfl

theorem upgradeCharts_path (w : World) (rootDir port releaseName : String) :
    ToolPath w (upgradeArgs rootDir releaseName) (helmEnv port)
      (upgradeCharts w rootDir port releaseName) := by
  unfold upgradeCharts upgradeArgs helmEnv
  simp only [helmHost_eq]
  cases h : w.cmdStart helmName ["upgrade", "--namespace", releaseName, releaseName, rootDir]
      ["HELM_HOST=127.0.0.1:" ++ port] with
  | some err => exact ToolPath.startFailed err h
  | none =>
    cases h' : w.cmdWait helmName ["upgrade", "--namespace", releaseName, releaseName, rootDir]
        ["HELM_HOST=127.0.0.1:" ++ port] with
    | some err => exact ToolPath.waitFailed err h h'
    | none => exact ToolPath.exited h h'

theorem rollbackCharts_path (w : World) (port releaseName revision : String) :
    ToolPath w (rollbackArgs releaseName revision) (helmEnv port)
      (rollbackCharts w port releaseName revision) := by
  unfold rollbackCharts rollbackArgs helmEnv
  simp only [helmHost_eq]
  cases h : w.cmdStart helmName ["rollback", releaseName, revision]
      ["HELM_HOST=127.0.0.1:" ++ port] with
  | some err => exact ToolPath.startFailed err h
  | none =>
    cases h' : w.cmdWait helmName ["rollback", releaseName, revision]
        ["HELM_HOST=127.0.0.1:" ++ port] with
    | some err => exact ToolPath.waitFailed err h h'
    | none => exact ToolPath.exited h h'

/-- Every invocation of `ActionHandler` follows one of the paths of `HandlerPath`. -/
theorem ActionHandler_path (w : World) (actionName : String) (apiContext : APIContext) :
    HandlerPath w actionName apiContext (ActionHandler w actionName apiContext) := by
  unfold ActionHandler actionHandlerBody Run.finish
  dsimp only
  cases happ : w.appByID apiContext.ID with
  | error err => exact HandlerPath.appLookupFailed err happ
  | ok app =>
  dsimp only
  cases hcluster : w.clusterByID (splitHead app.ProjectId) with
  | error err => exact HandlerPath.clusterLookupFailed app err happ hcluster
  | ok cluster =>
  dsimp only
  cases htemp : w.TempDir "" "helm-" with
  | error err => exact HandlerPath.tempDirFailed app cluster err happ hcluster htemp
  | ok rootDir =>
  dsimp only
  have hwrite' : ∀ x, w.WriteToFile (skipTLSVerify (w.KubeConfig cluster.ID
      (w.GetTokenAuthFromRequest apiContext.Request))) (w.Join rootDir ".kubeconfig") = x →
      w.WriteToFile (kubeData w apiContext cluster) (w.Join rootDir ".kubeconfig") = x :=
    fun _ h => h
  cases hwrite : w.WriteToFile (skipTLSVerify (w.KubeConfig cluster.ID
      (w.GetTokenAuthFromRequest apiContext.Request))) (w.Join rootDir ".kubeconfig") with
  | some err =>
    exact HandlerPath.writeToFileFailed app cluster rootDir err happ hcluster htemp
      (hwrite' _ hwrite)
  | none =>
  dsimp only
  unfold switchAction
  by_cases hup : actionName = "upgrade"
  · rw [if_pos hup]
    unfold upgradeCase
    dsimp only
    cases hbody : w.ReadBody apiContext.Request with
    | error err =>
      exact HandlerPath.readBodyFailed app cluster rootDir err (Or.inl hup) happ hcluster htemp
        (hwrite' _ hwrite) hbody
    | ok body =>
    dsimp only
    cases hpre : w.storeUpdate 0 [("externalId", body.get "externalId")] apiContext.ID with
    | some err =>
      exact HandlerPath.upgradePreWriteFailed app cluster rootDir body err hup happ hcluster
        htemp (hwrite' _ hwrite) hbody hpre
    | none =>
    dsimp only
    cases hparse : w.ParseExternalID (w.ToString (body.get "externalId")) with
    | error err =>
      exact HandlerPath.parseExternalIDFailed app cluster rootDir body err hup happ hcluster
        htemp (hwrite' _ hwrite) hbody hpre hparse
    | ok templateVersionID =>
    dsimp only
    cases htv : w.templateVersionByID templateVersionID with
    | error err =>
      exact HandlerPath.templateLookupFailed app cluster rootDir body templateVersionID err hup
        happ hcluster htemp (hwrite' _ hwrite) hbody hpre hparse htv
    | ok templateVersion =>
    dsimp only
    cases hconv : w.ConvertTemplates templateVersion.Files with
    | error err =>
      exact HandlerPath.convertTemplatesFailed app cluster rootDir body templateVersionID
        templateVersion err hup happ hcluster htemp (hwrite' _ hwrite) hbody hpre hparse htv
        hconv
    | ok files =>
    dsimp only
    cases hchart : w.WriteTempDir rootDir files with
    | error err =>
      exact HandlerPath.writeTempDirFailed app cluster rootDir body templateVersionID
        templateVersion files err hup happ hcluster htemp (hwrite' _ hwrite) hbody hpre hparse
        htv hconv hchart
    | ok tempDir =>
    dsimp only
    have htool := upgradeCharts_path w tempDir (w.GenerateRandomPort 0) app.Name
    generalize upgradeCharts w tempDir (w.GenerateRandomPort 0) app.Name = out at htool ⊢
    cases htool with
    | startFailed err hstart =>
      exact HandlerPath.upgradeStartFailed app cluster rootDir body templateVersionID
        templateVersion files tempDir err hup happ hcluster htemp (hwrite' _ hwrite) hbody hpre
        hparse htv hconv hchart hstart
    | waitFailed err hstart hwait =>
      exact HandlerPath.upgradeWaitFailed app cluster rootDir body templateVersionID
        templateVersion files tempDir err hup happ hcluster htemp (hwrite' _ hwrite) hbody hpre
        hparse htv hconv hchart hstart hwait
    | exited hstart hwait =>
      dsimp only
      have hp := HandlerPath.upgradeToolExited app cluster rootDir body templateVersionID
        templateVersion files tempDir hup happ hcluster htemp (hwrite' _ hwrite) hbody hpre
        hparse htv hconv hchart hstart hwait
      cases hconf : w.storeUpdate 1 [("externalId", body.get "externalId")] apiContext.ID with
      | some err => simpa only [upgradeData, hconf] using hp
      | none => simpa only [upgradeData, hconf] using hp
  · rw [if_neg hup]
    by_cases hrb : actionName = "rollback"
    · rw [if_pos hrb]
      unfold rollbackCase
      dsimp only
      cases hbody : w.ReadBody apiContext.Request with
      | error err =>
        exact HandlerPath.readBodyFailed app cluster rootDir err (Or.inr hrb) happ hcluster
          htemp (hwrite' _ hwrite) hbody
      | ok body =>
      dsimp only
      have htool := rollbackCharts_path w (w.GenerateRandomPort 0) app.Name
        (w.ToString (body.get "revision"))
      generalize rollbackCharts w (w.GenerateRandomPort 0) app.Name
        (w.ToString (body.get "revision")) = out at htool ⊢
      cases htool with
      | startFailed err hstart =>
        exact HandlerPath.rollbackStartFailed app cluster rootDir body err hrb happ hcluster
          htemp (hwrite' _ hwrite) hbody hstart
      | waitFailed err hstart hwait =>
        exact HandlerPath.rollbackWaitFailed app cluster rootDir body err hrb happ hcluster
          htemp (hwrite' _ hwrite) hbody hstart hwait
      | exited hstart hwait =>
        dsimp only
        have hp := HandlerPath.rollbackToolExited app cluster rootDir body hrb happ hcluster
          htemp (hwrite' _ hwrite) hbody hstart hwait
        cases hconf : w.storeUpdate 0 [("name", Value.str apiContext.ID)] apiContext.ID with
        | some err => simpa only [rollbackData, hconf] using hp
        | none => simpa only [rollbackData, hconf] using hp
    · rw [if_neg hrb]
      exact HandlerPath.otherAction app cluster rootDir hup hrb happ hcluster htemp
        (hwrite' _ hwrite)

/-! ## Release of the ephemeral resources -/

/-- The removals of an invocation: none when the workspace root was not created;
otherwise the root is the last effect, preceded only by the removal of the
chart directory when `hutils.WriteTempDir` succeeded. -/
theorem removal_shape (w : World) (actionName : String) (apiContext : APIContext) :
    ((ActionHandler w actionName apiContext).1.filter Effect.isWorkspace = [] ∧
      (ActionHandler w actionName apiContext).1.filter Effect.isRemove = []) ∨
    (∃ rootDir,
      (ActionHandler w actionName apiContext).1.filter Effect.isWorkspace =
        [Effect.tempDir "" "helm-" (.ok rootDir)] ∧
      (ActionHandler w actionName apiContext).1 =
        (ActionHandler w actionName apiContext).1.dropLast ++ [Effect.removeAll rootDir] ∧
      ((ActionHandler w actionName apiContext).1.filter Effect.isRemove =
          [Effect.removeAll rootDir] ∨
       ∃ files tempDir,
        (ActionHandler w actionName apiContext).1.filter Effect.isChartDir =
          [Effect.writeTempDir rootDir files (.ok tempDir)] ∧
        (ActionHandler w actionName apiContext).1.filter Effect.isRemove =
          [Effect.removeAll tempDir, Effect.removeAll rootDir])) := by
  have hp := ActionHandler_path w actionName apiContext
  generalize ActionHandler w actionName apiContext = out at hp ⊢
  cases hp <;> first
    | exact Or.inl ⟨rfl, rfl⟩
    | exact Or.inr ⟨_, rfl, rfl, Or.inl rfl⟩
    | exact Or.inr ⟨_, rfl, rfl, Or.inr ⟨_, _, rfl, rfl⟩⟩

/-- C1 (amended): when the workspace root was created, its removal is the last
effect of the invocation on every return path, and it is issued exactly once
unless `hutils.WriteTempDir` returned the root itself as the chart directory;
when the workspace root was not created, no removal is issued. -/
theorem workspace_root_removed_last (w : World) (actionName : String)
    (apiContext : APIContext) :
    (∀ rootDir, Effect.tempDir "" "helm-" (.ok rootDir) ∈
        (ActionHandler w actionName apiContext).1 →
      (∃ pre, (ActionHandler w actionName apiContext).1 = pre ++ [Effect.removeAll rootDir]) ∧
      ((∀ files, Effect.writeTempDir rootDir files (.ok rootDir) ∉
          (ActionHandler w actionName apiContext).1) →
        (ActionHandler w actionName apiContext).1.count (Effect.removeAll rootDir) = 1)) ∧
    ((∀ rootDir, Effect.tempDir "" "helm-" (.ok rootDir) ∉
        (ActionHandler w actionName apiContext).1) →
      ∀ path, Effect.removeAll path ∉ (ActionHandler w actionName apiContext).1) := by
  have hs := removal_shape w actionName apiContext
  generalize (ActionHandler w actionName apiContext).1 = tr at hs ⊢
  rcases hs with ⟨hW, hR⟩ | ⟨root, hW, hlast, hrem⟩
  · constructor
    · intro r hmem
      have h := mem_filter_of_mem Effect.isWorkspace hmem rfl
      rw [hW] at h
      cases h
    · intro _ path hmem
      have h := mem_filter_of_mem Effect.isRemove hmem rfl
      rw [hR] at h
      cases h
  · constructor
    · intro r hmem
      have h := mem_filter_of_mem Effect.isWorkspace hmem rfl
      rw [hW] at h
      simp only [List.mem_singleton, Effect.tempDir.injEq, Except.ok.injEq, true_and] at h
      subst h
      refine ⟨⟨_, hlast⟩, ?_⟩
      intro hne
      have hc : (tr.filter Effect.isRemove).count (Effect.removeAll r) =
          tr.count (Effect.removeAll r) := List.count_filter rfl
      rw [← hc]
      rcases hrem with hrem | ⟨files, tempDir, hC, hrem⟩
      · rw [hrem]; simp
      · have hmemC : Effect.writeTempDir r files (.ok tempDir) ∈ tr.filter Effect.isChartDir := by
          rw [hC]; exact List.mem_singleton.mpr rfl
        have hneq : tempDir ≠ r := by
          intro heq
          subst heq
          exact hne files (List.mem_filter.mp hmemC).1
        rw [hrem]
        simp [List.count_cons, hneq]
    · intro hnone
      have hmemW : Effect.tempDir "" "helm-" (.ok root) ∈ tr.filter Effect.isWorkspace := by
        rw [hW]; exact List.mem_singleton.mpr rfl
      exact absurd (List.mem_filter.mp hmemW).1 (hnone root)

/-- C1 (counterexample): when `hutils.WriteTempDir` returns the workspace root as
the chart directory, a successful upgrade removes the root twice. -/
theorem workspace_root_removed_twice :
    Effect.tempDir "" "helm-" (.ok "/tmp/helm-1") ∈
        (ActionHandler chartIsRootWorld "upgrade" demoContext).1 ∧
      (ActionHandler chartIsRootWorld "upgrade" demoContext).1.count
        (Effect.removeAll "/tmp/helm-1") = 2 := by
  decide

/-- C1 (witness): on a successful upgrade the root `/tmp/helm-1` is removed once, last. -/
theorem workspace_root_removed_last_witness :
    (∃ pre, (ActionHandler demoWorld "upgrade" demoContext).1 =
        pre ++ [Effect.removeAll "/tmp/helm-1"]) ∧
      (ActionHandler demoWorld "upgrade" demoContext).1.count
        (Effect.removeAll "/tmp/helm-1") = 1 :=
  ⟨((workspace_root_removed_last demoWorld "upgrade" demoContext).1 "/tmp/helm-1"
      (by decide)).1,
   ((workspace_root_removed_last demoWorld "upgrade" demoContext).1 "/tmp/helm-1"
      (by decide)).2
     (fun files hmem => by
        have h : Effect.writeTempDir "/tmp/helm-1" files (.ok "/tmp/helm-1") ∈
            [Effect.writeTempDir "/tmp/helm-1" [("my-app/Chart.yaml", "bmFtZTogbXktYXBw")]
              (.ok "/tmp/helm-1/my-app")] :=
          mem_filter_of_mem Effect.isChartDir hmem rfl
        simp at h)⟩

/-- C2 (amended): an invocation that creates the backend's context (the action is
upgrade or rollback and the credential file was written) cancels it exactly
once, whatever path it exits by; an invocation that returns before (a lookup,
the workspace or the credential write failed) or has another action name
creates no context and never calls `cancel`. -/
theorem cancel_once_when_context_created (w : World) (actionName : String)
    (apiContext : APIContext) :
    ((actionName = "upgrade" ∨ actionName = "rollback") ∧
      (ActionHandler w actionName apiContext).1.any Effect.isCredentialWritten = true ∧
      (ActionHandler w actionName apiContext).1.count Effect.withCancel = 1 ∧
      (ActionHandler w actionName apiContext).1.count Effect.cancel = 1) ∨
    ((¬(actionName = "upgrade" ∨ actionName = "rollback") ∨
        (ActionHandler w actionName apiContext).1.any Effect.isCredentialWritten = false) ∧
      (ActionHandler w actionName apiContext).1.count Effect.withCancel = 0 ∧
      (ActionHandler w actionName apiContext).1.count Effect.cancel = 0) := by
  have hp := ActionHandler_path w actionName apiContext
  generalize ActionHandler w actionName apiContext = out at hp ⊢
  cases hp <;> first
    | exact Or.inr ⟨Or.inr rfl, rfl, rfl⟩
    | exact Or.inl ⟨by assumption, rfl, rfl, rfl⟩
    | exact Or.inl ⟨Or.inl (by assumption), rfl, rfl, rfl⟩
    | exact Or.inl ⟨Or.inr (by assumption), rfl, rfl, rfl⟩
    | exact Or.inr ⟨Or.inl (fun h => h.elim (by assumption) (by assumption)), rfl, rfl⟩

/-- C2 (counterexample): when the app lookup fails the handler returns the
lookup error and `cancel` is never called. -/
theorem cancel_not_called_on_lookup_failure :
    (ActionHandler noAppWorld "upgrade" demoContext).2 = some "not found" ∧
      (ActionHandler noAppWorld "upgrade" demoContext).1.count Effect.cancel = 0 := by
  decide

/-- C2 (witness): a successful upgrade creates one context and cancels it once. -/
theorem cancel_once_when_context_created_witness :
    (ActionHandler demoWorld "upgrade" demoContext).1.count Effect.withCancel = 1 ∧
      (ActionHandler demoWorld "upgrade" demoContext).1.count Effect.cancel = 1 :=
  (cancel_once_when_context_created demoWorld "upgrade" demoContext).elim
    (fun h => ⟨h.2.2.1, h.2.2.2⟩)
    (fun h => absurd h.2.1 (by decide))

/-- C9: an invocation that starts the backend releases its ephemeral resources in
reverse order of acquisition on every exit path: nothing is released before the
return; then the chart directory (when `hutils.WriteTempDir` created it) is
removed, the context is cancelled, and the workspace root is removed last. -/
theorem release_in_reverse_order (w : World) (actionName : String) (apiContext : APIContext)
    (addr probeAddr ns kubeConfigPath : String)
    (hstart : Effect.startTiller addr probeAddr ns kubeConfigPath ∈
      (ActionHandler w actionName apiContext).1) :
    ∃ pre rootDir,
      (∀ e ∈ pre, e.isRelease = false) ∧
      ((pre.filter Effect.isAcquire =
            [Effect.tempDir "" "helm-" (.ok rootDir), Effect.withCancel] ∧
          (ActionHandler w actionName apiContext).1 =
            pre ++ [Effect.cancel, Effect.removeAll rootDir]) ∨
       (∃ files tempDir,
          pre.filter Effect.isAcquire =
            [Effect.tempDir "" "helm-" (.ok rootDir), Effect.withCancel,
             Effect.writeTempDir rootDir files (.ok tempDir)] ∧
          (ActionHandler w actionName apiContext).1 =
            pre ++ [Effect.removeAll tempDir, Effect.cancel, Effect.removeAll rootDir])) := by
  have hp := ActionHandler_path w actionName apiContext
  have hb := any_of_mem Effect.isStartTiller hstart rfl
  refine ⟨(ActionHandler w actionName apiContext).1.takeWhile (fun e => !e.isRelease), ?_⟩
  generalize ActionHandler w actionName apiContext = out at hp hb ⊢
  cases hp <;> first
    | exact (Bool.false_ne_true hb).elim
    | exact ⟨_, forall_of_all rfl, Or.inl ⟨rfl, rfl⟩⟩
    | exact ⟨_, forall_of_all rfl, Or.inr ⟨_, _, rfl, rfl⟩⟩

/-- C9 (witness): a successful upgrade ends with the removal of the chart
directory, the cancellation and the removal of the workspace root. -/
theorem release_in_reverse_order_witness :
    ∃ pre rootDir,
      (∀ e ∈ pre, e.isRelease = false) ∧
      ((pre.filter Effect.isAcquire =
            [Effect.tempDir "" "helm-" (.ok rootDir), Effect.withCancel] ∧
          (ActionHandler demoWorld "upgrade" demoContext).1 =
            pre ++ [Effect.cancel, Effect.removeAll rootDir]) ∨
       (∃ files tempDir,
          pre.filter Effect.isAcquire =
            [Effect.tempDir "" "helm-" (.ok rootDir), Effect.withCancel,
             Effect.writeTempDir rootDir files (.ok tempDir)] ∧
          (ActionHandler demoWorld "upgrade" demoContext).1 =
            pre ++ [Effect.removeAll tempDir, Effect.cancel, Effect.removeAll rootDir])) :=
  release_in_reverse_order demoWorld "upgrade" demoContext "40001" "40002" "my-ns"
    "/tmp/helm-1/.kubeconfig" (by decide)

/-! ## The upgrade branch -/

/-- C3: an upgrade that returns `nil` issues `store.Update` exactly twice, both
times on `apiContext.ID` with the payload that maps `externalId` to the value
read from the request body: once before the tool is started and once after it
exited successfully. -/
theorem upgrade_success_updates_twice (w : World) (apiContext : APIContext)
    (hok : (ActionHandler w "upgrade" apiContext).2 = none) :
    ∃ body pre mid post,
      w.ReadBody apiContext.Request = .ok body ∧
      (ActionHandler w "upgrade" apiContext).1 =
        pre ++ [Effect.storeUpdate [("externalId", body.get "externalId")] apiContext.ID none]
          ++ mid ++
          [Effect.storeUpdate [("externalId", body.get "externalId")] apiContext.ID none]
          ++ post ∧
      (∀ e ∈ pre, e.isUpdate = false) ∧ (∀ e ∈ pre, e.isCmd = false) ∧
      (∀ e ∈ mid, e.isUpdate = false) ∧
      (∃ args env, mid.filter Effect.isCmd =
        [Effect.cmdStart helmName args env none, Effect.cmdWait helmName args env none]) ∧
      (∀ e ∈ post, e.isUpdate = false) ∧ (∀ e ∈ post, e.isCmd = false) := by
  have hp := ActionHandler_path w "upgrade" apiContext
  generalize ActionHandler w "upgrade" apiContext = out at hp hok ⊢
  cases hp
  case upgradeToolExited app cluster rootDir body templateVersionID templateVersion files
      tempDir hact happ hcluster htemp hwrite hbody hpre hparse htv hconv hchart hstart hwait =>
    have hconf : w.storeUpdate 1 (upgradeData body) apiContext.ID = none := hok
    refine ⟨body, requestTrace w apiContext app cluster rootDir,
      [Effect.parseExternalID (w.ToString (body.get "externalId")) (.ok templateVersionID),
       Effect.byID ResType.TemplateVersionType templateVersionID none,
       Effect.convertTemplates templateVersion.Files none,
       Effect.writeTempDir rootDir files (.ok tempDir),
       Effect.cmdStart helmName (upgradeArgs tempDir app.Name)
         (helmEnv (w.GenerateRandomPort 0)) none,
       Effect.cmdWait helmName (upgradeArgs tempDir app.Name)
         (helmEnv (w.GenerateRandomPort 0)) none],
      [Effect.removeAll tempDir, Effect.cancel, Effect.removeAll rootDir],
      hbody, ?_, forall_of_all rfl, forall_of_all rfl, forall_of_all rfl, ⟨_, _, rfl⟩,
      forall_of_all rfl, forall_of_all rfl⟩
    rw [hconf]
    rfl
  all_goals first
    | exact absurd hok (Option.some_ne_none _)
    | exact absurd ‹"upgrade" = "rollback"› (by decide)
    | exact absurd rfl ‹"upgrade" ≠ "upgrade"›

/-- C3 (witness): the upgrade of `demoWorld` returns `nil`. -/
theorem upgrade_success_updates_twice_witness :
    ∃ body pre mid post,
      demoWorld.ReadBody demoContext.Request = .ok body ∧
      (ActionHandler demoWorld "upgrade" demoContext).1 =
        pre ++ [Effect.storeUpdate [("externalId", body.get "externalId")] demoContext.ID none]
          ++ mid ++
          [Effect.storeUpdate [("externalId", body.get "externalId")] demoContext.ID none]
          ++ post ∧
      (∀ e ∈ pre, e.isUpdate = false) ∧ (∀ e ∈ pre, e.isCmd = false) ∧
      (∀ e ∈ mid, e.isUpdate = false) ∧
      (∃ args env, mid.filter Effect.isCmd =
        [Effect.cmdStart helmName args env none, Effect.cmdWait helmName args env none]) ∧
      (∀ e ∈ post, e.isUpdate = false) ∧ (∀ e ∈ post, e.isCmd = false) :=
  upgrade_success_updates_twice demoWorld demoContext (by decide)

/-- C5: when the template-version lookup of an upgrade returns an error, the
handler returns that error and the tool is never started; the version looked up
is the one parsed from the request's `externalId`. -/
theorem upgrade_template_lookup_error (w : World) (apiContext : APIContext)
    (templateVersionID : String) (err : Err)
    (hmiss : Effect.byID ResType.TemplateVersionType templateVersionID (some err) ∈
      (ActionHandler w "upgrade" apiContext).1) :
    (ActionHandler w "upgrade" apiContext).2 = some err ∧
    (∀ e ∈ (ActionHandler w "upgrade" apiContext).1, e.isCmd = false) ∧
    ∃ body,
      w.ReadBody apiContext.Request = .ok body ∧
      w.ParseExternalID (w.ToString (body.get "externalId")) = .ok templateVersionID ∧
      w.templateVersionByID templateVersionID = .error err := by
  have hp := ActionHandler_path w "upgrade" apiContext
  have hb := any_of_mem Effect.isTemplateMiss hmiss rfl
  have hf := mem_filter_of_mem Effect.isTemplateMiss hmiss rfl
  generalize ActionHandler w "upgrade" apiContext = out at hp hb hf ⊢
  cases hp
  case templateLookupFailed app cluster rootDir body tvid err' hact happ hcluster htemp hwrite
      hbody hpre hparse htv =>
    have hf' : Effect.byID ResType.TemplateVersionType templateVersionID (some err) ∈
        [Effect.byID ResType.TemplateVersionType tvid (some err')] := hf
    simp only [List.mem_singleton, Effect.byID.injEq, Option.some.injEq, true_and] at hf'
    obtain ⟨h1, h2⟩ := hf'
    subst h1 h2
    exact ⟨rfl, forall_of_all rfl, body, hbody, hparse, htv⟩
  all_goals exact (Bool.false_ne_true hb).elim

/-- C5 (witness): the upgrade of `noTemplateWorld` returns the lookup error. -/
theorem upgrade_template_lookup_error_witness :
    (ActionHandler noTemplateWorld "upgrade" demoContext).2 = some "not found" ∧
    (∀ e ∈ (ActionHandler noTemplateWorld "upgrade" demoContext).1, e.isCmd = false) ∧
    ∃ body,
      noTemplateWorld.ReadBody demoContext.Request = .ok body ∧
      noTemplateWorld.ParseExternalID (noTemplateWorld.ToString (body.get "externalId")) =
        .ok "library-my-app-1.0" ∧
      noTemplateWorld.templateVersionByID "library-my-app-1.0" = .error "not found" :=
  upgrade_template_lookup_error noTemplateWorld demoContext "library-my-app-1.0" "not found"
    (by decide)

/-! ## The rollback branch -/

/-- The tool events and the state updates of a rollback that starts the tool. -/
theorem rollback_shape (w : World) (apiContext : APIContext)
    (hb : (ActionHandler w "rollback" apiContext).1.any Effect.isTool = true) :
    ∃ app body res,
      w.appByID apiContext.ID = .ok app ∧
      w.ReadBody apiContext.Request = .ok body ∧
      (ActionHandler w "rollback" apiContext).1.filter Effect.isTool =
        [Effect.cmdStart helmName ["rollback", app.Name, w.ToString (body.get "revision")]
          (helmEnv (w.GenerateRandomPort 0)) res] ∧
      ((ActionHandler w "rollback" apiContext).1.any Effect.isExitZero = false ∨
       ∃ ures,
        (ActionHandler w "rollback" apiContext).1 =
          (ActionHandler w "rollback" apiContext).1.takeWhile (fun e => !e.isExitZero) ++
            [Effect.cmdWait helmName ["rollback", app.Name, w.ToString (body.get "revision")]
               (helmEnv (w.GenerateRandomPort 0)) none,
             Effect.storeUpdate [("name", Value.str apiContext.ID)] apiContext.ID ures] ++
            ((ActionHandler w "rollback" apiContext).1.dropWhile
              (fun e => !e.isExitZero)).drop 2 ∧
        (ActionHandler w "rollback" apiContext).1.filter Effect.isUpdate =
          [Effect.storeUpdate [("name", Value.str apiContext.ID)] apiContext.ID ures]) := by
  have hp := ActionHandler_path w "rollback" apiContext
  generalize ActionHandler w "rollback" apiContext = out at hp hb ⊢
  cases hp <;> first
    | exact (Bool.false_ne_true hb).elim
    | exact absurd ‹"rollback" = "upgrade"› (by decide)
    | exact ⟨_, _, _, by assumption, by assumption, rfl, Or.inl rfl⟩
    | exact ⟨_, _, _, by assumption, by assumption, rfl, Or.inr ⟨_, rfl, rfl⟩⟩

/-- C4: a rollback that reaches the tool starts it exactly once, with the
arguments `rollback`, the app's name and the request's revision; when the tool
exits with code 0, the invocation issues exactly one state update, on
`apiContext.ID` with the payload that maps `name` to `apiContext.ID`, right
after the tool exited. -/
theorem rollback_tool_and_update (w : World) (apiContext : APIContext)
    (name : String) (args env : List String) (err : Option Err)
    (hreach : Effect.cmdStart name args env err ∈ (ActionHandler w "rollback" apiContext).1) :
    ∃ app body,
      w.appByID apiContext.ID = .ok app ∧
      w.ReadBody apiContext.Request = .ok body ∧
      name = "helm" ∧
      args = ["rollback", app.Name, w.ToString (body.get "revision")] ∧
      (ActionHandler w "rollback" apiContext).1.filter Effect.isTool =
        [Effect.cmdStart name args env err] ∧
      (Effect.cmdWait name args env none ∈ (ActionHandler w "rollback" apiContext).1 →
        ∃ pre post res,
          (ActionHandler w "rollback" apiContext).1 =
            pre ++ [Effect.cmdWait name args env none,
                    Effect.storeUpdate [("name", Value.str apiContext.ID)] apiContext.ID res]
              ++ post ∧
          (ActionHandler w "rollback" apiContext).1.filter Effect.isUpdate =
            [Effect.storeUpdate [("name", Value.str apiContext.ID)] apiContext.ID res]) := by
  obtain ⟨app, body, res, happ, hbody, htool, hexit⟩ :=
    rollback_shape w apiContext (any_of_mem Effect.isTool hreach rfl)
  have hmem := mem_filter_of_mem Effect.isTool hreach rfl
  rw [htool] at hmem
  simp only [List.mem_singleton, Effect.cmdStart.injEq] at hmem
  obtain ⟨hname, hargs, henv, herr⟩ := hmem
  subst hname hargs henv herr
  refine ⟨app, body, happ, hbody, rfl, rfl, htool, ?_⟩
  intro hwait
  rcases hexit with hno | ⟨ures, hsplit, hupd⟩
  · have hyes := any_of_mem Effect.isExitZero hwait rfl
    rw [hno] at hyes
    exact (Bool.false_ne_true hyes).elim
  · exact ⟨_, _, ures, hsplit, hupd⟩

/-- C4 (witness): the rollback of `demoWorld` to revision `3` of `my-app`. -/
theorem rollback_tool_and_update_witness :
    ∃ app body,
      demoWorld.appByID demoContext.ID = .ok app ∧
      demoWorld.ReadBody demoContext.Request = .ok body ∧
      "helm" = "helm" ∧
      ["rollback", "my-app", "3"] =
        ["rollback", app.Name, demoWorld.ToString (body.get "revision")] ∧
      (ActionHandler demoWorld "rollback" demoContext).1.filter Effect.isTool =
        [Effect.cmdStart "helm" ["rollback", "my-app", "3"] ["HELM_HOST=127.0.0.1:40001"]
          none] ∧
      (Effect.cmdWait "helm" ["rollback", "my-app", "3"] ["HELM_HOST=127.0.0.1:40001"] none ∈
          (ActionHandler demoWorld "rollback" demoContext).1 →
        ∃ pre post res,
          (ActionHandler demoWorld "rollback" demoContext).1 =
            pre ++ [Effect.cmdWait "helm" ["rollback", "my-app", "3"]
                      ["HELM_HOST=127.0.0.1:40001"] none,
                    Effect.storeUpdate [("name", Value.str demoContext.ID)] demoContext.ID res]
              ++ post ∧
          (ActionHandler demoWorld "rollback" demoContext).1.filter Effect.isUpdate =
            [Effect.storeUpdate [("name", Value.str demoContext.ID)] demoContext.ID res]) :=
  rollback_tool_and_update demoWorld demoContext "helm" ["rollback", "my-app", "3"]
    ["HELM_HOST=127.0.0.1:40001"] none (by decide)

/-! ## The external tool -/

/-- The trace of an invocation in which the tool failed: the failure is the only
one, the handler returns its error, no state update follows the start of the
tool, and before it a rollback issued none and an upgrade only its first write. -/
theorem tool_failure_shape (w : World) (actionName : String) (apiContext : APIContext)
    (hb : (ActionHandler w actionName apiContext).1.any Effect.isToolFailure = true) :
    ∃ name args env err,
      (ActionHandler w actionName apiContext).2 = some err ∧
      ((ActionHandler w actionName apiContext).1.filter Effect.isToolFailure =
          [Effect.cmdStart name args env (some err)] ∨
       (ActionHandler w actionName apiContext).1.filter Effect.isToolFailure =
          [Effect.cmdWait name args env (some err)]) ∧
      (∀ e ∈ (ActionHandler w actionName apiContext).1.takeWhile (fun e => !e.isCmd),
        e.isCmd = false) ∧
      (∀ e ∈ (ActionHandler w actionName apiContext).1.dropWhile (fun e => !e.isCmd),
        e.isUpdate = false) ∧
      ((actionName = "rollback" ∧
          (ActionHandler w actionName apiContext).1.filter Effect.isUpdate = []) ∨
       (actionName = "upgrade" ∧ ∃ body,
          w.ReadBody apiContext.Request = .ok body ∧
          (ActionHandler w actionName apiContext).1.filter Effect.isUpdate =
            [Effect.storeUpdate [("externalId", body.get "externalId")] apiContext.ID none] ∧
          ((ActionHandler w actionName apiContext).1.takeWhile (fun e => !e.isCmd)).filter
              Effect.isUpdate =
            [Effect.storeUpdate [("externalId", body.get "externalId")] apiContext.ID
              none])) := by
  have hp := ActionHandler_path w actionName apiContext
  generalize ActionHandler w actionName apiContext = out at hp hb ⊢
  cases hp <;> first
    | exact (Bool.false_ne_true hb).elim
    | exact ⟨_, _, _, _, rfl, Or.inl rfl, forall_of_all rfl, forall_of_all rfl,
        Or.inl ⟨by assumption, rfl⟩⟩
    | exact ⟨_, _, _, _, rfl, Or.inr rfl, forall_of_all rfl, forall_of_all rfl,
        Or.inl ⟨by assumption, rfl⟩⟩
    | exact ⟨_, _, _, _, rfl, Or.inl rfl, forall_of_all rfl, forall_of_all rfl,
        Or.inr ⟨by assumption, _, by assumption, rfl, rfl⟩⟩
    | exact ⟨_, _, _, _, rfl, Or.inr rfl, forall_of_all rfl, forall_of_all rfl,
        Or.inr ⟨by assumption, _, by assumption, rfl, rfl⟩⟩

/-- C6: when the tool fails to start or exits with a nonzero code, the handler
returns the tool's error unchanged and issues no state update from the start of
the tool on; before it a rollback has issued no state update, and an upgrade
exactly one, the write of the request's `externalId`, which is not reverted. -/
theorem tool_failure_returned (w : World) (actionName : String) (apiContext : APIContext)
    (name : String) (args env : List String) (err : Err)
    (hfail : Effect.cmdStart name args env (some err) ∈
        (ActionHandler w actionName apiContext).1 ∨
      Effect.cmdWait name args env (some err) ∈ (ActionHandler w actionName apiContext).1) :
    (ActionHandler w actionName apiContext).2 = some err ∧
    ∃ pre post,
      (ActionHandler w actionName apiContext).1 = pre ++ post ∧
      (∀ e ∈ pre, e.isCmd = false) ∧
      (∀ e ∈ post, e.isUpdate = false) ∧
      ((actionName = "rollback" ∧
          (ActionHandler w actionName apiContext).1.filter Effect.isUpdate = []) ∨
       (actionName = "upgrade" ∧ ∃ body,
          w.ReadBody apiContext.Request = .ok body ∧
          (ActionHandler w actionName apiContext).1.filter Effect.isUpdate =
            [Effect.storeUpdate [("externalId", body.get "externalId")] apiContext.ID none] ∧
          pre.filter Effect.isUpdate =
            [Effect.storeUpdate [("externalId", body.get "externalId")] apiContext.ID
              none])) := by
  have hb : (ActionHandler w actionName apiContext).1.any Effect.isToolFailure = true :=
    hfail.elim (fun h => any_of_mem Effect.isToolFailure h rfl)
      (fun h => any_of_mem Effect.isToolFailure h rfl)
  have hf : (Effect.cmdStart name args env (some err) ∈
        (ActionHandler w actionName apiContext).1.filter Effect.isToolFailure) ∨
      (Effect.cmdWait name args env (some err) ∈
        (ActionHandler w actionName apiContext).1.filter Effect.isToolFailure) :=
    hfail.elim (fun h => Or.inl (mem_filter_of_mem Effect.isToolFailure h rfl))
      (fun h => Or.inr (mem_filter_of_mem Effect.isToolFailure h rfl))
  obtain ⟨name', args', env', err', hres, hfilter, hpre, hpost, hupd⟩ :=
    tool_failure_shape w actionName apiContext hb
  have herr : err' = err := by
    rcases hfilter with hfilter | hfilter <;> rw [hfilter] at hf <;>
      rcases hf with hf | hf <;>
      simp only [List.mem_singleton, Effect.cmdStart.injEq, Effect.cmdWait.injEq,
        Option.some.injEq, reduceCtorEq] at hf
    · exact hf.2.2.2.symm
    · exact hf.2.2.2.symm
  subst herr
  exact ⟨hres, _, _, (List.takeWhile_append_dropWhile _ _).symm, hpre, hpost, hupd⟩

/-- C6 (witness): the upgrade of `toolFailsWorld`, where the tool exits with
status 1. -/
theorem tool_failure_returned_witness :
    (ActionHandler toolFailsWorld "upgrade" demoContext).2 = some "exit status 1" ∧
    ∃ pre post,
      (ActionHandler toolFailsWorld "upgrade" demoContext).1 = pre ++ post ∧
      (∀ e ∈ pre, e.isCmd = false) ∧
      (∀ e ∈ post, e.isUpdate = false) ∧
      (("upgrade" = "rollback" ∧
          (ActionHandler toolFailsWorld "upgrade" demoContext).1.filter Effect.isUpdate = []) ∨
       ("upgrade" = "upgrade" ∧ ∃ body,
          toolFailsWorld.ReadBody demoContext.Request = .ok body ∧
          (ActionHandler toolFailsWorld "upgrade" demoContext).1.filter Effect.isUpdate =
            [Effect.storeUpdate [("externalId", body.get "externalId")] demoContext.ID none] ∧
          pre.filter Effect.isUpdate =
            [Effect.storeUpdate [("externalId", body.get "externalId")] demoContext.ID
              none])) :=
  tool_failure_returned toolFailsWorld "upgrade" demoContext "helm"
    ["upgrade", "--namespace", "my-app", "my-app", "/tmp/helm-1/my-app"]
    ["HELM_HOST=127.0.0.1:40001"] "exit status 1" (Or.inr (by decide))

/-- The tool, the tiller and the ports of an invocation that starts the tool. -/
theorem tool_env_shape (w : World) (actionName : String) (apiContext : APIContext)
    (hb : (ActionHandler w actionName apiContext).1.any Effect.isTool = true) :
    ∃ name args res ns kubeConfigPath,
      (ActionHandler w actionName apiContext).1.filter Effect.isTool =
        [Effect.cmdStart name args ["HELM_HOST=127.0.0.1:" ++ w.GenerateRandomPort 0] res] ∧
      (ActionHandler w actionName apiContext).1.filter Effect.isStartTiller =
        [Effect.startTiller (w.GenerateRandomPort 0) (w.GenerateRandomPort 1) ns
          kubeConfigPath] ∧
      (ActionHandler w actionName apiContext).1.filter Effect.isPort =
        [Effect.generateRandomPort (w.GenerateRandomPort 0),
         Effect.generateRandomPort (w.GenerateRandomPort 1)] := by
  have hp := ActionHandler_path w actionName apiContext
  generalize ActionHandler w actionName apiContext = out at hp hb ⊢
  cases hp <;> first
    | exact (Bool.false_ne_true hb).elim
    | exact ⟨_, _, _, _, _, rfl, rfl, rfl⟩

/-- C7: when the tool is started, its environment is the one-element list
`HELM_HOST=127.0.0.1:p`, where `p` is the first port generated in the invocation,
the one passed to `StartTiller` as its main port (the probe port is the second). -/
theorem tool_env_is_main_port (w : World) (actionName : String) (apiContext : APIContext)
    (name : String) (args env : List String) (err : Option Err)
    (hinv : Effect.cmdStart name args env err ∈ (ActionHandler w actionName apiContext).1) :
    ∃ p probe ns kubeConfigPath,
      env = ["HELM_HOST=127.0.0.1:" ++ p] ∧
      (ActionHandler w actionName apiContext).1.filter Effect.isStartTiller =
        [Effect.startTiller p probe ns kubeConfigPath] ∧
      (ActionHandler w actionName apiContext).1.filter Effect.isPort =
        [Effect.generateRandomPort p, Effect.generateRandomPort probe] := by
  obtain ⟨name', args', res, ns, kc, htool, htiller, hports⟩ :=
    tool_env_shape w actionName apiContext (any_of_mem Effect.isTool hinv rfl)
  have hmem := mem_filter_of_mem Effect.isTool hinv rfl
  rw [htool] at hmem
  simp only [List.mem_singleton, Effect.cmdStart.injEq] at hmem
  exact ⟨_, _, ns, kc, hmem.2.2.1, htiller, hports⟩

/-- C7 (witness): the rollback of `demoWorld`, whose ports are 40001 and 40002. -/
theorem tool_env_is_main_port_witness :
    ∃ p probe ns kubeConfigPath,
      ["HELM_HOST=127.0.0.1:40001"] = ["HELM_HOST=127.0.0.1:" ++ p] ∧
      (ActionHandler demoWorld "rollback" demoContext).1.filter Effect.isStartTiller =
        [Effect.startTiller p probe ns kubeConfigPath] ∧
      (ActionHandler demoWorld "rollback" demoContext).1.filter Effect.isPort =
        [Effect.generateRandomPort p, Effect.generateRandomPort probe] :=
  tool_env_is_main_port demoWorld "rollback" demoContext "helm" ["rollback", "my-app", "3"]
    ["HELM_HOST=127.0.0.1:40001"] none (by decide)

/-! ## Success -/

/-- An upgrade or rollback that returns `nil` has issued, after the tool exited
with code 0, a state update on `apiContext.ID` that returned no error, and no
operation on the store follows it. -/
theorem confirming_update_shape (w : World) (actionName : String)
    (apiContext : APIContext)
    (hact : actionName = "upgrade" ∨ actionName = "rollback")
    (hok : (ActionHandler w actionName apiContext).2 = none) :
    ∃ pre post data,
      (ActionHandler w actionName apiContext).1 =
        pre ++ [Effect.storeUpdate data apiContext.ID none] ++ post ∧
      (∀ e ∈ post, e.isStoreOp = false) ∧
      (∃ args env, pre.filter Effect.isCmd =
        [Effect.cmdStart helmName args env none, Effect.cmdWait helmName args env none]) := by
  have hp := ActionHandler_path w actionName apiContext
  generalize ActionHandler w actionName apiContext = out at hp hok ⊢
  cases hp
  case upgradeToolExited app cluster rootDir body templateVersionID templateVersion files
      tempDir hup happ hcluster htemp hwrite hbody hpre hparse htv hconv hchart hstart hwait =>
    have hconf : w.storeUpdate 1 (upgradeData body) apiContext.ID = none := hok
    refine ⟨chartTrace w apiContext app cluster rootDir body templateVersionID templateVersion
        files tempDir ++
        [Effect.cmdStart helmName (upgradeArgs tempDir app.Name)
           (helmEnv (w.GenerateRandomPort 0)) none,
         Effect.cmdWait helmName (upgradeArgs tempDir app.Name)
           (helmEnv (w.GenerateRandomPort 0)) none],
      [Effect.removeAll tempDir, Effect.cancel, Effect.removeAll rootDir],
      upgradeData body, ?_, forall_of_all rfl, ⟨_, _, rfl⟩⟩
    rw [hconf]
    rfl
  case rollbackToolExited app cluster rootDir body hrb happ hcluster htemp hwrite hbody
      hstart hwait =>
    have hconf : w.storeUpdate 0 (rollbackData apiContext) apiContext.ID = none := hok
    refine ⟨requestTrace w apiContext app cluster rootDir ++
        [Effect.cmdStart helmName (rollbackArgs app.Name (w.ToString (body.get "revision")))
           (helmEnv (w.GenerateRandomPort 0)) none,
         Effect.cmdWait helmName (rollbackArgs app.Name (w.ToString (body.get "revision")))
           (helmEnv (w.GenerateRandomPort 0)) none],
      [Effect.cancel, Effect.removeAll rootDir],
      rollbackData apiContext, ?_, forall_of_all rfl, ⟨_, _, rfl⟩⟩
    rw [hconf]
    rfl
  all_goals first
    | exact absurd hok (Option.some_ne_none _)
    | exact (hact.elim ‹actionName ≠ "upgrade"› ‹actionName ≠ "rollback"›).elim

/-- An invocation whose action name is neither upgrade nor rollback issues no
state update; it returns `nil` when the credential file was written and an
error when it returned before. -/
theorem other_action_shape (w : World) (actionName : String) (apiContext : APIContext)
    (hother : ¬(actionName = "upgrade" ∨ actionName = "rollback")) :
    (ActionHandler w actionName apiContext).1.filter Effect.isUpdate = [] ∧
    (((ActionHandler w actionName apiContext).2 = none ∧
        (ActionHandler w actionName apiContext).1.any Effect.isCredentialWritten = true) ∨
     (∃ err, (ActionHandler w actionName apiContext).2 = some err ∧
        (ActionHandler w actionName apiContext).1.any Effect.isCredentialWritten = false)) := by
  have hp := ActionHandler_path w actionName apiContext
  generalize ActionHandler w actionName apiContext = out at hp ⊢
  cases hp <;> first
    | exact ⟨rfl, Or.inr ⟨_, rfl, rfl⟩⟩
    | exact ⟨rfl, Or.inl ⟨rfl, rfl⟩⟩
    | exact absurd (by assumption) hother
    | exact absurd (Or.inl (by assumption)) hother
    | exact absurd (Or.inr (by assumption)) hother

/-- C8 (amended): an upgrade or rollback that returns `nil` has issued, after the
tool exited with code 0, a state update on `apiContext.ID` that returned no
error, and no operation on the store follows it.  An invocation whose action
name is neither upgrade nor rollback issues no state update at all; it returns
`nil` exactly when the credential file was written (so the lookups and the
workspace creation succeeded too) and an error otherwise. -/
theorem success_after_confirming_update (w : World) (actionName : String)
    (apiContext : APIContext) :
    ((actionName = "upgrade" ∨ actionName = "rollback") →
      (ActionHandler w actionName apiContext).2 = none →
      ∃ pre post data,
        (ActionHandler w actionName apiContext).1 =
          pre ++ [Effect.storeUpdate data apiContext.ID none] ++ post ∧
        (∀ e ∈ post, e.isStoreOp = false) ∧
        (∃ args env, pre.filter Effect.isCmd =
          [Effect.cmdStart helmName args env none, Effect.cmdWait helmName args env none])) ∧
    (¬(actionName = "upgrade" ∨ actionName = "rollback") →
      (∀ e ∈ (ActionHandler w actionName apiContext).1, e.isUpdate = false) ∧
      ((ActionHandler w actionName apiContext).2 = none ↔
        (ActionHandler w actionName apiContext).1.any Effect.isCredentialWritten = true) ∧
      ((ActionHandler w actionName apiContext).2 ≠ none ↔
        (ActionHandler w actionName apiContext).1.any Effect.isCredentialWritten = false)) := by
  refine ⟨confirming_update_shape w actionName apiContext, ?_⟩
  intro hother
  obtain ⟨hupd, hres⟩ := other_action_shape w actionName apiContext hother
  refine ⟨?_, ?_, ?_⟩
  · intro e he
    cases hu : e.isUpdate with
    | false => rfl
    | true =>
      have hmem := mem_filter_of_mem Effect.isUpdate he hu
      rw [hupd] at hmem
      cases hmem
  · rcases hres with ⟨h1, h2⟩ | ⟨err, h1, h2⟩
    · exact ⟨fun _ => h2, fun _ => h1⟩
    · rw [h1, h2]
      exact ⟨fun h => absurd h (Option.some_ne_none _), fun h => absurd h Bool.false_ne_true⟩
  · rcases hres with ⟨h1, h2⟩ | ⟨err, h1, h2⟩
    · rw [h1, h2]
      exact ⟨fun h => absurd rfl h, fun h => absurd h.symm Bool.false_ne_true⟩
    · rw [h1]
      exact ⟨fun _ => h2, fun _ => Option.some_ne_none _⟩

/-- C8 (counterexample): an action that is neither upgrade nor rollback returns
`nil` without any state update. -/
theorem success_without_update_on_other_action :
    (ActionHandler demoWorld "restart" demoContext).2 = none ∧
      (ActionHandler demoWorld "restart" demoContext).1.filter Effect.isUpdate = [] := by
  decide

/-- C8 (witness): the rollback of `demoWorld` returns `nil` after its state
update; the action `restart` on `demoWorld` returns `nil` without any state
update, and on `noAppWorld` it returns an error. -/
theorem success_after_confirming_update_witness :
    (∃ pre post data,
      (ActionHandler demoWorld "rollback" demoContext).1 =
        pre ++ [Effect.storeUpdate data demoContext.ID none] ++ post ∧
      (∀ e ∈ post, e.isStoreOp = false) ∧
      (∃ args env, pre.filter Effect.isCmd =
        [Effect.cmdStart helmName args env none, Effect.cmdWait helmName args env none])) ∧
    ((∀ e ∈ (ActionHandler demoWorld "restart" demoContext).1, e.isUpdate = false) ∧
      (ActionHandler demoWorld "restart" demoContext).2 = none) ∧
    (ActionHandler noAppWorld "restart" demoContext).2 ≠ none :=
  ⟨(success_after_confirming_update demoWorld "rollback" demoContext).1 (Or.inr rfl)
      (by decide),
   ⟨((success_after_confirming_update demoWorld "restart" demoContext).2 (by decide)).1,
    ((success_after_confirming_update demoWorld "restart" demoContext).2
      (by decide)).2.1.mpr (by decide)⟩,
   ((success_after_confirming_update noAppWorld "restart" demoContext).2
      (by decide)).2.2.mpr (by decide)⟩

/-! ## The credential file -/

theorem skipTLSVerify_insecure (data : Config) :
    ∀ kc ∈ (skipTLSVerify data).Clusters, kc.2.InsecureSkipTLSVerify = true := by
  intro kc hkc
  unfold skipTLSVerify at hkc
  obtain ⟨orig, _, rfl⟩ := List.mem_map.mp hkc
  rfl

theorem skipTLSVerify_keys (data : Config) :
    (skipTLSVerify data).Clusters.map Prod.fst = data.Clusters.map Prod.fst := by
  unfold skipTLSVerify
  simp [List.map_map, Function.comp_def]

theorem skipTLSVerify_entries (data : Config) :
    List.Forall₂
      (fun o n : String × Cluster =>
        n.1 = o.1 ∧ n.2.LocationOfOrigin = o.2.LocationOfOrigin ∧ n.2.Server = o.2.Server ∧
        n.2.CertificateAuthority = o.2.CertificateAuthority ∧
        n.2.CertificateAuthorityData = o.2.CertificateAuthorityData ∧
        n.2.Extensions = o.2.Extensions)
      data.Clusters (skipTLSVerify data).Clusters := by
  unfold skipTLSVerify
  dsimp only
  induction data.Clusters with
  | nil => exact List.Forall₂.nil
  | cons kc rest ih => exact List.Forall₂.cons ⟨rfl, rfl, rfl, rfl, rfl, rfl⟩ ih

/-- The credential write of an invocation that reaches it. -/
theorem credential_write_shape (w : World) (actionName : String) (apiContext : APIContext)
    (hb : (ActionHandler w actionName apiContext).1.any Effect.isCredentialWrite = true) :
    ∃ app cluster rootDir res,
      w.appByID apiContext.ID = .ok app ∧
      w.clusterByID (splitHead app.ProjectId) = .ok cluster ∧
      w.TempDir "" "helm-" = .ok rootDir ∧
      (ActionHandler w actionName apiContext).1.filter Effect.isCredentialWrite =
        [Effect.writeToFile (kubeData w apiContext cluster) (w.Join rootDir ".kubeconfig")
          res] := by
  have hp := ActionHandler_path w actionName apiContext
  generalize ActionHandler w actionName apiContext = out at hp hb ⊢
  cases hp <;> first
    | exact (Bool.false_ne_true hb).elim
    | exact ⟨_, _, _, _, by assumption, by assumption, by assumption, rfl⟩

/-- C10: the bundle the handler writes goes to `.kubeconfig` under the workspace
root; every cluster entry of it has `InsecureSkipTLSVerify` set; it has the
cluster keys of the bundle the getter returned, in the same order, and every
other field of the entries and of the bundle is the getter's. -/
theorem kubeconfig_written_insecure (w : World) (actionName : String)
    (apiContext : APIContext) (data : Config) (path : String) (err : Option Err)
    (hwrite : Effect.writeToFile data path err ∈ (ActionHandler w actionName apiContext).1) :
    ∃ app cluster rootDir,
      w.appByID apiContext.ID = .ok app ∧
      w.clusterByID (splitHead app.ProjectId) = .ok cluster ∧
      w.TempDir "" "helm-" = .ok rootDir ∧
      path = w.Join rootDir ".kubeconfig" ∧
      (∀ kc ∈ data.Clusters, kc.2.InsecureSkipTLSVerify = true) ∧
      data.Clusters.map Prod.fst =
        (w.KubeConfig cluster.ID (w.GetTokenAuthFromRequest apiContext.Request)).Clusters.map
          Prod.fst ∧
      List.Forall₂
        (fun o n : String × Cluster =>
          n.1 = o.1 ∧ n.2.LocationOfOrigin = o.2.LocationOfOrigin ∧ n.2.Server = o.2.Server ∧
          n.2.CertificateAuthority = o.2.CertificateAuthority ∧
          n.2.CertificateAuthorityData = o.2.CertificateAuthorityData ∧
          n.2.Extensions = o.2.Extensions)
        (w.KubeConfig cluster.ID (w.GetTokenAuthFromRequest apiContext.Request)).Clusters
        data.Clusters ∧
      data.Kind = (w.KubeConfig cluster.ID (w.GetTokenAuthFromRequest apiContext.Request)).Kind ∧
      data.APIVersion =
        (w.KubeConfig cluster.ID (w.GetTokenAuthFromRequest apiContext.Request)).APIVersion ∧
      data.Preferences =
        (w.KubeConfig cluster.ID (w.GetTokenAuthFromRequest apiContext.Request)).Preferences ∧
      data.AuthInfos =
        (w.KubeConfig cluster.ID (w.GetTokenAuthFromRequest apiContext.Request)).AuthInfos ∧
      data.Contexts =
        (w.KubeConfig cluster.ID (w.GetTokenAuthFromRequest apiContext.Request)).Contexts ∧
      data.CurrentContext =
        (w.KubeConfig cluster.ID
          (w.GetTokenAuthFromRequest apiContext.Request)).CurrentContext ∧
      data.Extensions =
        (w.KubeConfig cluster.ID (w.GetTokenAuthFromRequest apiContext.Request)).Extensions := by
  obtain ⟨app, cluster, rootDir, res, happ, hcluster, htemp, hfilter⟩ :=
    credential_write_shape w actionName apiContext
      (any_of_mem Effect.isCredentialWrite hwrite rfl)
  have hmem := mem_filter_of_mem Effect.isCredentialWrite hwrite rfl
  rw [hfilter] at hmem
  simp only [List.mem_singleton, Effect.writeToFile.injEq] at hmem
  obtain ⟨hdata, hpath, _⟩ := hmem
  subst hdata hpath
  exact ⟨app, cluster, rootDir, happ, hcluster, htemp, rfl, skipTLSVerify_insecure _,
    skipTLSVerify_keys _, skipTLSVerify_entries _, rfl, rfl, rfl, rfl, rfl, rfl, rfl⟩

/-- C10 (witness): the upgrade of `demoWorld` writes the bundle of `demoConfig`
with TLS verification switched off to `/tmp/helm-1/.kubeconfig`. -/
theorem kubeconfig_written_insecure_witness :
    Effect.writeToFile (skipTLSVerify demoConfig) "/tmp/helm-1/.kubeconfig" none ∈
        (ActionHandler demoWorld "upgrade" demoContext).1 ∧
      (∀ kc ∈ (skipTLSVerify demoConfig).Clusters, kc.2.InsecureSkipTLSVerify = true) :=
  ⟨by decide,
   (kubeconfig_written_insecure demoWorld "upgrade" demoContext (skipTLSVerify demoConfig)
      "/tmp/helm-1/.kubeconfig" none (by decide)).elim
     (fun _ h => h.elim (fun _ h => h.elim (fun _ h => h.2.2.2.2.1)))⟩

end App
